import Mathlib

/-!
Verification of the Financial Risk & Fraud Scoring Pipeline.

Shallow embedding of the pipeline services
(`FinancialRatioService`, `FraudDetectionService`, `RiskManagementService`,
`ForecastingService`, `ScoringService`) over exact rational arithmetic.

Modelling conventions:
* A JavaScript `number` is modelled as `ℚ`; optional statement fields are
  `Option ℚ` (`none` = the field is absent / `undefined`).
* JS truthiness of a numeric field (`if (statement.x)`) is `truthy`:
  the field is present and non-zero.
* `Math.round` rounds half toward positive infinity: `jsRound x = ⌊x + 1/2⌋`;
  `Math.round(x*100)/100` is `round2`.
* In `ℚ`, `q / 0 = 0`. Where the source can divide by zero and then branch on
  the resulting `Infinity`/`NaN` (the Debt Ratio status, the financial risk
  debt-to-equity, the market risk revenue-to-assets), the IEEE outcome of each
  comparison is written out explicitly, so the embedding branches exactly as
  the JS comparisons do.
* Human-readable description / recommendation / explanation strings and the
  per-indicator `details` bags are presentation data carried unchanged next to
  the numeric fields; they are not modelled.
-/

/-- One financial statement record (`FinancialStatementRepository.FinancialStatement`).
`assets` and `liabilities` are mandatory; all other numeric fields are optional. -/
structure FinancialStatement where
  period : String
  assets : ℚ
  liabilities : ℚ
  equity : Option ℚ := none
  current_assets : Option ℚ := none
  current_liabilities : Option ℚ := none
  fixed_assets : Option ℚ := none
  inventory : Option ℚ := none
  cash : Option ℚ := none
  accounts_receivable : Option ℚ := none
  retained_earnings : Option ℚ := none
  revenue : Option ℚ := none
  cogs : Option ℚ := none
  gross_profit : Option ℚ := none
  operating_expenses : Option ℚ := none
  ebit : Option ℚ := none
  ebitda : Option ℚ := none
  interest_expense : Option ℚ := none
  tax_expense : Option ℚ := none
  net_income : Option ℚ := none
  operating_cf : Option ℚ := none
  investing_cf : Option ℚ := none
  financing_cf : Option ℚ := none
deriving DecidableEq

/-- JS truthiness of an optional numeric field: present and non-zero. -/
def truthy : Option ℚ → Prop
  | none => False
  | some v => v ≠ 0

instance : DecidablePred truthy := fun o =>
  match o with
  | none => isFalse (fun h => h)
  | some _ => instDecidableNot

/-- `statement.equity || statement.assets - statement.liabilities`:
the book equity, derived from the balance sheet when the field is absent or
zero (JS `||` falls through on the falsy value `0`). -/
def equityOf (s : FinancialStatement) : ℚ :=
  match s.equity with
  | some v => if v ≠ 0 then v else s.assets - s.liabilities
  | none => s.assets - s.liabilities

/-- JS `Math.round`: round half toward positive infinity. -/
def jsRound (x : ℚ) : ℤ := ⌊x + 1/2⌋

/-- `Math.round(x * 100) / 100`: round to 2 decimal places. -/
def round2 (x : ℚ) : ℚ := ((jsRound (x * 100) : ℤ) : ℚ) / 100

namespace FinancialRatioService

inductive RatioStatus
  | Good
  | Warning
  | Critical
deriving DecidableEq

inductive RatioCategory
  | Liquidity
  | Leverage
  | Profitability
  | Efficiency
  | Growth
deriving DecidableEq

/-- One computed financial ratio (`FinancialRatio` in the source; the constant
`formula`/`description` strings are not modelled). -/
structure RatioRecord where
  name : String
  category : RatioCategory
  value : ℚ
  idealValue : Option ℚ := none
  status : RatioStatus
deriving DecidableEq

/-- Current Ratio = Current Assets / Current Liabilities (guarded by truthiness
of both fields). -/
def currentRatioItem (s : FinancialStatement) : List RatioRecord :=
  if truthy s.current_assets ∧ truthy s.current_liabilities then
    let v := s.current_assets.getD 0 / s.current_liabilities.getD 0
    [{ name := "Current Ratio", category := .Liquidity, value := v, idealValue := some 1.5,
       status := if v ≥ 1.5 then .Good else if v ≥ 1.0 then .Warning else .Critical }]
  else []

/-- Quick Ratio = (Current Assets - Inventory) / Current Liabilities
(`inventory !== undefined`, so a zero inventory is accepted). -/
def quickRatioItem (s : FinancialStatement) : List RatioRecord :=
  if truthy s.current_assets ∧ s.inventory.isSome ∧ truthy s.current_liabilities then
    let v := (s.current_assets.getD 0 - s.inventory.getD 0) / s.current_liabilities.getD 0
    [{ name := "Quick Ratio", category := .Liquidity, value := v, idealValue := some 1.0,
       status := if v ≥ 1.0 then .Good else if v ≥ 0.5 then .Warning else .Critical }]
  else []

/-- Cash Ratio = Cash / Current Liabilities. -/
def cashRatioItem (s : FinancialStatement) : List RatioRecord :=
  if truthy s.cash ∧ truthy s.current_liabilities then
    let v := s.cash.getD 0 / s.current_liabilities.getD 0
    [{ name := "Cash Ratio", category := .Liquidity, value := v, idealValue := some 0.2,
       status := if v ≥ 0.2 then .Good else if v ≥ 0.1 then .Warning else .Critical }]
  else []

def calculateLiquidityRatios (s : FinancialStatement) : List RatioRecord :=
  currentRatioItem s ++ quickRatioItem s ++ cashRatioItem s

/-- Debt to Equity = Total Liabilities / Equity, only when equity > 0. -/
def debtToEquityItem (s : FinancialStatement) : List RatioRecord :=
  if equityOf s > 0 then
    let v := s.liabilities / equityOf s
    [{ name := "Debt to Equity", category := .Leverage, value := v, idealValue := some 2.0,
       status := if v ≤ 2.0 then .Good else if v ≤ 3.0 then .Warning else .Critical }]
  else []

/-- Debt Ratio = Total Liabilities / Total Assets. The source emits this ratio
unconditionally; when `assets = 0` the JS quotient is `±Infinity` (or `NaN`),
for which `v ≤ 0.5` / `v ≤ 0.7` evaluate as spelled out in the first branch. -/
def debtRatioItem (s : FinancialStatement) : List RatioRecord :=
  let v := s.liabilities / s.assets
  [{ name := "Debt Ratio", category := .Leverage, value := v, idealValue := some 0.5,
     status :=
       if s.assets = 0 then (if s.liabilities < 0 then .Good else .Critical)
       else if v ≤ 0.5 then .Good else if v ≤ 0.7 then .Warning else .Critical }]

/-- Times Interest Earned = EBIT / Interest Expense (interest expense > 0). -/
def timesInterestEarnedItem (s : FinancialStatement) : List RatioRecord :=
  if truthy s.ebit ∧ truthy s.interest_expense ∧ s.interest_expense.getD 0 > 0 then
    let v := s.ebit.getD 0 / s.interest_expense.getD 0
    [{ name := "Times Interest Earned", category := .Leverage, value := v, idealValue := some 2.0,
       status := if v ≥ 2.0 then .Good else if v ≥ 1.0 then .Warning else .Critical }]
  else []

def calculateLeverageRatios (s : FinancialStatement) : List RatioRecord :=
  debtToEquityItem s ++ debtRatioItem s ++ timesInterestEarnedItem s

/-- Net Profit Margin = Net Income / Revenue (revenue > 0). -/
def netProfitMarginItem (s : FinancialStatement) : List RatioRecord :=
  if truthy s.net_income ∧ truthy s.revenue ∧ s.revenue.getD 0 > 0 then
    let v := s.net_income.getD 0 / s.revenue.getD 0
    [{ name := "Net Profit Margin", category := .Profitability, value := v,
       status := if v ≥ 0.1 then .Good else if v ≥ 0.05 then .Warning else .Critical }]
  else []

/-- Return on Assets = Net Income / Total Assets (assets > 0). -/
def returnOnAssetsItem (s : FinancialStatement) : List RatioRecord :=
  if truthy s.net_income ∧ s.assets > 0 then
    let v := s.net_income.getD 0 / s.assets
    [{ name := "Return on Assets (ROA)", category := .Profitability, value := v,
       status := if v ≥ 0.05 then .Good else if v ≥ 0.02 then .Warning else .Critical }]
  else []

/-- Return on Equity = Net Income / Equity (derived equity > 0). -/
def returnOnEquityItem (s : FinancialStatement) : List RatioRecord :=
  if truthy s.net_income ∧ equityOf s > 0 then
    let v := s.net_income.getD 0 / equityOf s
    [{ name := "Return on Equity (ROE)", category := .Profitability, value := v,
       status := if v ≥ 0.15 then .Good else if v ≥ 0.08 then .Warning else .Critical }]
  else []

/-- Gross Profit Margin = Gross Profit / Revenue (revenue > 0). -/
def grossProfitMarginItem (s : FinancialStatement) : List RatioRecord :=
  if truthy s.gross_profit ∧ truthy s.revenue ∧ s.revenue.getD 0 > 0 then
    let v := s.gross_profit.getD 0 / s.revenue.getD 0
    [{ name := "Gross Profit Margin", category := .Profitability, value := v,
       status := if v ≥ 0.3 then .Good else if v ≥ 0.2 then .Warning else .Critical }]
  else []

def calculateProfitabilityRatios (s : FinancialStatement) : List RatioRecord :=
  netProfitMarginItem s ++ returnOnAssetsItem s ++ returnOnEquityItem s ++
    grossProfitMarginItem s

/-- Asset Turnover = Revenue / Total Assets (assets > 0). -/
def assetTurnoverItem (s : FinancialStatement) : List RatioRecord :=
  if truthy s.revenue ∧ s.assets > 0 then
    let v := s.revenue.getD 0 / s.assets
    [{ name := "Asset Turnover", category := .Efficiency, value := v,
       status := if v ≥ 1.0 then .Good else if v ≥ 0.5 then .Warning else .Critical }]
  else []

/-- Inventory Turnover = COGS / Inventory (inventory > 0). -/
def inventoryTurnoverItem (s : FinancialStatement) : List RatioRecord :=
  if truthy s.cogs ∧ truthy s.inventory ∧ s.inventory.getD 0 > 0 then
    let v := s.cogs.getD 0 / s.inventory.getD 0
    [{ name := "Inventory Turnover", category := .Efficiency, value := v,
       status := if v ≥ 5.0 then .Good else if v ≥ 3.0 then .Warning else .Critical }]
  else []

/-- Receivables Turnover = Revenue / Accounts Receivable (receivables > 0). -/
def receivablesTurnoverItem (s : FinancialStatement) : List RatioRecord :=
  if truthy s.revenue ∧ truthy s.accounts_receivable ∧ s.accounts_receivable.getD 0 > 0 then
    let v := s.revenue.getD 0 / s.accounts_receivable.getD 0
    [{ name := "Receivables Turnover", category := .Efficiency, value := v,
       status := if v ≥ 8.0 then .Good else if v ≥ 5.0 then .Warning else .Critical }]
  else []

def calculateEfficiencyRatios (s : FinancialStatement) : List RatioRecord :=
  assetTurnoverItem s ++ inventoryTurnoverItem s ++ receivablesTurnoverItem s

/-- `FinancialRatioService.calculateAllRatios`. -/
def calculateAllRatios (s : FinancialStatement) : List RatioRecord :=
  calculateLiquidityRatios s ++ calculateLeverageRatios s ++
    calculateProfitabilityRatios s ++ calculateEfficiencyRatios s

/-- Point value of a ratio status (`scoreRatio` in the source). -/
def ratioPoints (r : RatioRecord) : ℚ :=
  match r.status with
  | .Good => 100
  | .Warning => 60
  | .Critical => 20

/-- Mean of a list of scores; 0 on the empty list (`averageScore`). -/
def averageScore (scores : List ℚ) : ℚ :=
  if scores = [] then 0 else scores.sum / (scores.length : ℚ)

structure CategoryScores where
  liquidity : ℚ
  leverage : ℚ
  profitability : ℚ
  efficiency : ℚ
deriving DecidableEq

/-- `FinancialRatioService.calculateCategoryScores`. -/
def calculateCategoryScores (ratios : List RatioRecord) : CategoryScores :=
  { liquidity :=
      averageScore ((ratios.filter (fun r => decide (r.category = .Liquidity))).map ratioPoints)
    leverage :=
      averageScore ((ratios.filter (fun r => decide (r.category = .Leverage))).map ratioPoints)
    profitability :=
      averageScore ((ratios.filter (fun r => decide (r.category = .Profitability))).map ratioPoints)
    efficiency :=
      averageScore ((ratios.filter (fun r => decide (r.category = .Efficiency))).map ratioPoints) }

/-- `FinancialRatioService.calculateOverallScore` (ratio-engine internal weights). -/
def calculateOverallScore (cs : CategoryScores) : ℚ :=
  cs.liquidity * 0.2 + cs.leverage * 0.2 + cs.profitability * 0.4 + cs.efficiency * 0.2

structure RatioAnalysisResult where
  period : String
  ratios : List RatioRecord
  overallScore : ℚ
  categoryScores : CategoryScores
deriving DecidableEq

/-- `FinancialRatioService.analyzeStatement`. -/
def analyzeStatement (s : FinancialStatement) : RatioAnalysisResult :=
  let ratios := calculateAllRatios s
  let cs := calculateCategoryScores ratios
  { period := s.period, ratios := ratios, overallScore := calculateOverallScore cs,
    categoryScores := cs }

end FinancialRatioService

namespace FraudDetectionService

inductive Severity
  | Low
  | Medium
  | High
  | Critical
deriving DecidableEq

inductive FlagType
  | Benford
  | QualityOfEarnings
  | ReceivableGrowth
  | AssetInflation
  | Accrual
deriving DecidableEq

/-- One fraud indicator (`FraudIndicator` in the source; the description /
details / recommendation presentation strings are not modelled). -/
structure FraudIndicator where
  flagType : FlagType
  severity : Severity
  score : ℚ
deriving DecidableEq

/-- Most significant decimal digit, with fuel for structural recursion. -/
def msdAux : ℕ → ℕ → ℕ
  | 0, n => n
  | fuel+1, n => if n < 10 then n else msdAux fuel (n / 10)

/-- Most significant decimal digit of a natural number. -/
def msd (n : ℕ) : ℕ := msdAux n n

/-- First character of `String(Math.abs(num))` read as a digit:
for `|num| ≥ 1` this is the most significant digit of `⌊|num|⌋` (plain and
exponential display both start with it); for `|num| < 1` the string starts
`"0."`, giving digit 0, which the Benford counting loop then skips.
(Sub-`1e-6` values, which JS prints in exponential form, do not occur among
statement amounts and are mapped to 0 here.) -/
def leadingDigit (q : ℚ) : ℕ :=
  if |q| < 1 then 0 else msd ⌊|q|⌋.toNat

/-- The fixed Benford sample set: every present, strictly positive value among
assets, liabilities, current assets/liabilities, revenue, net income, cash,
inventory, accounts receivable. -/
def benfordNumbers (s : FinancialStatement) : List ℚ :=
  ([some s.assets, some s.liabilities, s.current_assets, s.current_liabilities,
      s.revenue, s.net_income, s.cash, s.inventory,
      s.accounts_receivable].filterMap id).filter (fun v => decide (0 < v))

/-- Benford expected first-digit percentages for digits 1..9. -/
def benfordExpected : List ℚ := [30.1, 17.6, 12.5, 9.7, 7.9, 6.7, 5.8, 5.1, 4.6]

/-- Number of samples whose leading digit is `d`. -/
def digitCount (l : List ℚ) (d : ℕ) : ℚ :=
  ((l.filter (fun v => decide (leadingDigit v = d))).length : ℚ)

/-- Chi-square statistic of the observed first-digit counts against the
Benford expectation (the `expected > 0` guard is the source's). -/
def chiSquareOf (l : List ℚ) : ℚ :=
  ((List.range 9).map (fun j =>
    let expCnt := benfordExpected.getD j 0 / 100 * (l.length : ℚ)
    if 0 < expCnt then (digitCount l (j+1) - expCnt)^2 / expCnt else 0)).sum

/-- `FraudDetectionService.benfordLawAnalysis`: abstains below 5 samples;
otherwise scores by how far the chi-square statistic exceeds the 95%
critical value 15.51 (8 degrees of freedom). -/
def benfordLawAnalysis (s : FinancialStatement) : FraudIndicator :=
  let numbers := benfordNumbers s
  if numbers.length < 5 then ⟨.Benford, .Low, 0⟩
  else
    let chiSquare := chiSquareOf numbers
    let criticalValue : ℚ := 15.51
    if chiSquare > criticalValue * 2 then ⟨.Benford, .Critical, 80⟩
    else if chiSquare > criticalValue * 1.5 then ⟨.Benford, .High, 60⟩
    else if chiSquare > criticalValue then ⟨.Benford, .Medium, 40⟩
    else ⟨.Benford, .Low, 0⟩

/-- `FraudDetectionService.qualityOfEarnings`: abstains unless operating cash
flow and net income are both present and non-zero (the source's
`!operating_cf || !net_income || net_income === 0`, where `!x` is already true
for a present zero); otherwise scores CFO / Net Income. -/
def qualityOfEarnings (s : FinancialStatement) : FraudIndicator :=
  if ¬ truthy s.operating_cf ∨ ¬ truthy s.net_income then ⟨.QualityOfEarnings, .Low, 0⟩
  else
    let cfoNi := s.operating_cf.getD 0 / s.net_income.getD 0
    if cfoNi < 0.5 then ⟨.QualityOfEarnings, .Critical, 90⟩
    else if cfoNi < 0.8 then ⟨.QualityOfEarnings, .High, 60⟩
    else if cfoNi < 1.0 then ⟨.QualityOfEarnings, .Medium, 30⟩
    else ⟨.QualityOfEarnings, .Low, 0⟩

/-- `FraudDetectionService.receivableGrowthAnalysis`: requires both periods'
accounts receivable and revenue (truthy); abstains on zero sales growth;
otherwise scores AR growth relative to sales growth. -/
def receivableGrowthAnalysis (cur prev : FinancialStatement) : FraudIndicator :=
  if ¬ truthy cur.accounts_receivable ∨ ¬ truthy prev.accounts_receivable ∨
      ¬ truthy cur.revenue ∨ ¬ truthy prev.revenue then ⟨.ReceivableGrowth, .Low, 0⟩
  else
    let arGrowth :=
      (cur.accounts_receivable.getD 0 - prev.accounts_receivable.getD 0) /
        prev.accounts_receivable.getD 0
    let salesGrowth := (cur.revenue.getD 0 - prev.revenue.getD 0) / prev.revenue.getD 0
    if salesGrowth = 0 then ⟨.ReceivableGrowth, .Low, 0⟩
    else
      let quotient := arGrowth / salesGrowth
      if quotient > 2.0 then ⟨.ReceivableGrowth, .Critical, 85⟩
      else if quotient > 1.5 then ⟨.ReceivableGrowth, .High, 65⟩
      else if quotient > 1.2 then ⟨.ReceivableGrowth, .Medium, 40⟩
      else ⟨.ReceivableGrowth, .Low, 0⟩

/-- `FraudDetectionService.assetInflationAnalysis`: requires both periods'
fixed assets and revenue (truthy); scores fixed-asset growth in excess of
revenue growth. -/
def assetInflationAnalysis (cur prev : FinancialStatement) : FraudIndicator :=
  if ¬ truthy cur.fixed_assets ∨ ¬ truthy prev.fixed_assets ∨
      ¬ truthy cur.revenue ∨ ¬ truthy prev.revenue then ⟨.AssetInflation, .Low, 0⟩
  else
    let faGrowth := (cur.fixed_assets.getD 0 - prev.fixed_assets.getD 0) / prev.fixed_assets.getD 0
    let revenueGrowth := (cur.revenue.getD 0 - prev.revenue.getD 0) / prev.revenue.getD 0
    let difference := faGrowth - revenueGrowth
    if difference > 0.30 then ⟨.AssetInflation, .Critical, 75⟩
    else if difference > 0.20 then ⟨.AssetInflation, .High, 55⟩
    else if difference > 0.15 then ⟨.AssetInflation, .Medium, 35⟩
    else ⟨.AssetInflation, .Low, 0⟩

/-- `FraudDetectionService.accrualRatio`: requires truthy net income and
operating cash flow and non-zero assets; scores |Net Income - CFO| / Assets. -/
def accrualCheck (s : FinancialStatement) : FraudIndicator :=
  if ¬ truthy s.net_income ∨ ¬ truthy s.operating_cf ∨ s.assets = 0 then ⟨.Accrual, .Low, 0⟩
  else
    let accrual := (s.net_income.getD 0 - s.operating_cf.getD 0) / s.assets
    if |accrual| > 0.15 then ⟨.Accrual, .Critical, 80⟩
    else if |accrual| > 0.12 then ⟨.Accrual, .High, 60⟩
    else if |accrual| > 0.10 then ⟨.Accrual, .Medium, 35⟩
    else ⟨.Accrual, .Low, 0⟩

/-- The indicator list built by `analyzeStatement`: the two period-over-period
analyzers run only when at least one previous statement is supplied, on the
first previous statement. -/
def fraudIndicatorList (s : FinancialStatement) (prevs : List FinancialStatement) :
    List FraudIndicator :=
  match prevs with
  | [] => [benfordLawAnalysis s, qualityOfEarnings s, accrualCheck s]
  | p :: _ =>
      [benfordLawAnalysis s, qualityOfEarnings s, receivableGrowthAnalysis s p,
        assetInflationAnalysis s p, accrualCheck s]

/-- `FraudDetectionService.calculateOverallFraudScore`: mean of all computed
indicator scores, capped at 100. -/
def calculateOverallFraudScore (indicators : List FraudIndicator) : ℚ :=
  if indicators = [] then 0
  else min 100 ((indicators.map (fun i => i.score)).sum / (indicators.length : ℚ))

/-- `FraudDetectionService.determineRiskLevel`. -/
def determineRiskLevel (score : ℚ) : Severity :=
  if 70 ≤ score then .Critical
  else if 50 ≤ score then .High
  else if 30 ≤ score then .Medium
  else .Low

structure FraudAnalysisResult where
  overallFraudScore : ℚ
  indicators : List FraudIndicator
  riskLevel : Severity
deriving DecidableEq

/-- `FraudDetectionService.analyzeStatement`. -/
def analyzeStatement (s : FinancialStatement) (prevs : List FinancialStatement) :
    FraudAnalysisResult :=
  let indicators := fraudIndicatorList s prevs
  let overallFraudScore := calculateOverallFraudScore indicators
  { overallFraudScore := overallFraudScore
    indicators := indicators.filter (fun i => decide (0 < i.score))
    riskLevel := determineRiskLevel overallFraudScore }

end FraudDetectionService

namespace RiskManagementService

open FraudDetectionService (Severity)

inductive RiskType
  | Financial
  | Liquidity
  | Operational
  | Market
deriving DecidableEq

/-- One risk assessment (`RiskAssessment` in the source; explanation /
recommendation / metrics presentation data is not modelled). -/
structure RiskAssessment where
  riskType : RiskType
  score : ℚ
  level : Severity
deriving DecidableEq

/-- `RiskManagementService.assessFinancialRisk`: debt-to-equity with derived
equity; when equity ≤ 0 the source sets `debtToEquity = Infinity`, which takes
the `> 5.0` branch. -/
def assessFinancialRisk (s : FinancialStatement) : RiskAssessment :=
  if equityOf s > 0 then
    let debtToEquity := s.liabilities / equityOf s
    if debtToEquity > 5.0 then ⟨.Financial, 95, .Critical⟩
    else if debtToEquity > 3.0 then ⟨.Financial, 75, .High⟩
    else if debtToEquity > 2.0 then ⟨.Financial, 45, .Medium⟩
    else ⟨.Financial, 15, .Low⟩
  else ⟨.Financial, 95, .Critical⟩

/-- `RiskManagementService.assessLiquidityRisk`: abstains without truthy
current liabilities; otherwise scores the current ratio
(`current_assets || 0` over current liabilities). -/
def assessLiquidityRisk (s : FinancialStatement) : RiskAssessment :=
  if ¬ truthy s.current_liabilities then ⟨.Liquidity, 0, .Low⟩
  else
    let currentRatioV := s.current_assets.getD 0 / s.current_liabilities.getD 0
    if currentRatioV < 0.8 then ⟨.Liquidity, 90, .Critical⟩
    else if currentRatioV < 1.0 then ⟨.Liquidity, 70, .High⟩
    else if currentRatioV < 1.5 then ⟨.Liquidity, 40, .Medium⟩
    else ⟨.Liquidity, 15, .Low⟩

/-- `RiskManagementService.assessOperationalRisk`: abstains without truthy
revenue and operating expenses; otherwise scores opex / revenue. -/
def assessOperationalRisk (s : FinancialStatement) : RiskAssessment :=
  if ¬ truthy s.revenue ∨ ¬ truthy s.operating_expenses then ⟨.Operational, 0, .Low⟩
  else
    let opexV := s.operating_expenses.getD 0 / s.revenue.getD 0
    if opexV > 0.9 then ⟨.Operational, 85, .Critical⟩
    else if opexV > 0.75 then ⟨.Operational, 65, .High⟩
    else if opexV > 0.60 then ⟨.Operational, 40, .Medium⟩
    else ⟨.Operational, 15, .Low⟩

/-- `RiskManagementService.assessMarketRisk` (invoked only under truthy
revenue): scores revenue / assets, then adds 20 and re-derives the level when
net income / revenue < 0. With `assets = 0` the JS quotient is `±Infinity`
(revenue ≠ 0 under the caller's guard): `+Infinity` falls to the `else`
branch, `-Infinity` takes `< 0.3`; both are spelled out in the first branch. -/
def assessMarketRisk (s : FinancialStatement) : RiskAssessment :=
  let rev := s.revenue.getD 0
  let base : ℚ × Severity :=
    if s.assets = 0 then (if rev < 0 then (70, .High) else (20, .Low))
    else
      let revenueToAssets := rev / s.assets
      if revenueToAssets < 0.3 then (70, .High)
      else if revenueToAssets < 0.5 then (45, .Medium)
      else (20, .Low)
  let profitability := if truthy s.net_income then s.net_income.getD 0 / rev else 0
  let adjusted : ℚ × Severity :=
    if profitability < 0 then
      let s2 := base.1 + 20
      (s2, if 70 ≤ s2 then .Critical else if 50 ≤ s2 then .High else .Medium)
    else base
  ⟨.Market, min 100 adjusted.1, adjusted.2⟩

/-- The category weights of `calculateOverallRisk`. -/
def riskWeight : RiskType → ℚ
  | .Financial => 0.3
  | .Liquidity => 0.3
  | .Operational => 0.25
  | .Market => 0.15

/-- `RiskManagementService.calculateOverallRisk`: weighted mean over the
assessments actually produced. -/
def calculateOverallRisk (assessments : List RiskAssessment) : ℚ :=
  if assessments = [] then 0
  else
    let totalScore := (assessments.map (fun a => a.score * riskWeight a.riskType)).sum
    let totalWeight := (assessments.map (fun a => riskWeight a.riskType)).sum
    if totalWeight > 0 then totalScore / totalWeight else 0

/-- `RiskManagementService.determineRiskLevel`. -/
def determineRiskLevel (score : ℚ) : Severity :=
  if 70 ≤ score then .Critical
  else if 50 ≤ score then .High
  else if 30 ≤ score then .Medium
  else .Low

structure ComprehensiveRiskReport where
  overallRiskScore : ℚ
  riskLevel : Severity
  assessments : List RiskAssessment
deriving DecidableEq

/-- `RiskManagementService.assessRisks`: Financial, Liquidity and Operational
always run; Market only under truthy revenue. -/
def assessRisks (s : FinancialStatement) : ComprehensiveRiskReport :=
  let assessments :=
    [assessFinancialRisk s, assessLiquidityRisk s, assessOperationalRisk s] ++
      (if truthy s.revenue then [assessMarketRisk s] else [])
  let overallRiskScore := calculateOverallRisk assessments
  { overallRiskScore := overallRiskScore
    riskLevel := determineRiskLevel overallRiskScore
    assessments := assessments }

end RiskManagementService

namespace ForecastingService

open FraudDetectionService (Severity)

inductive Zone
  | Safe
  | Grey
  | Distress
deriving DecidableEq

/-- The five weighted Z-Score component quotients (`components` in the source:
working capital / assets, retained earnings / assets, EBIT / assets,
book equity / liabilities, sales / assets). -/
structure ZComponents where
  wcTa : ℚ
  reTa : ℚ
  ebitTa : ℚ
  mveTl : ℚ
  salesTa : ℚ
deriving DecidableEq

structure ZScoreResult where
  zScore : ℚ
  zone : Zone
  bankruptcyRisk : Severity
  components : ZComponents
deriving DecidableEq

/-- `ForecastingService.calculateZScore`: Altman Z-Score
`1.2·WC/TA + 1.4·RE/TA + 3.3·EBIT/TA + 0.6·Equity/TL + 1.0·Sales/TA`,
with the `zScore` field rounded to 2 decimals and the zone taken from the
unrounded value. Division by zero assets is the source's documented
non-finite edge case; here it follows the `ℚ` convention `q / 0 = 0`. -/
def calculateZScore (s : FinancialStatement) : ZScoreResult :=
  let totalAssets := s.assets
  let totalLiabilities := s.liabilities
  let equity := equityOf s
  let workingCapital := s.current_assets.getD 0 - s.current_liabilities.getD 0
  let wc_ta := workingCapital / totalAssets
  let retainedEarnings :=
    match s.retained_earnings with
    | some v => if v ≠ 0 then v else s.net_income.getD 0
    | none => s.net_income.getD 0
  let re_ta := retainedEarnings / totalAssets
  let ebitV :=
    match s.ebit with
    | some v => if v ≠ 0 then v else s.net_income.getD 0
    | none => s.net_income.getD 0
  let ebit_ta := ebitV / totalAssets
  let mve_tl := if totalLiabilities > 0 then equity / totalLiabilities else 0
  let sales_ta := s.revenue.getD 0 / totalAssets
  let zScore := 1.2 * wc_ta + 1.4 * re_ta + 3.3 * ebit_ta + 0.6 * mve_tl + 1.0 * sales_ta
  let zoneRisk : Zone × Severity :=
    if zScore > 2.99 then (.Safe, .Low)
    else if zScore > 1.81 then (.Grey, .Medium)
    else (.Distress, .High)
  { zScore := round2 zScore
    zone := zoneRisk.1
    bankruptcyRisk := zoneRisk.2
    components := ⟨wc_ta, re_ta, ebit_ta, mve_tl, sales_ta⟩ }

/-- One revenue forecast (`RevenueForecast` in the source). The confidence
interval `predicted ± 2·stdDev·predicted` (with `stdDev` the square root of
the population variance of the growth rates) and the constant `methodology`
string are not modelled: the square root is irrational, hence has no
computable `ℚ` embedding, and no stated property refers to them. -/
structure RevenueForecast where
  period : String
  predictedRevenue : ℤ
  growthRate : ℚ
deriving DecidableEq

/-- The filter predicate of `forecastRevenue`: `s.revenue && s.revenue > 0`. -/
def validRevenue (s : FinancialStatement) : Prop :=
  truthy s.revenue ∧ 0 < s.revenue.getD 0

instance : DecidablePred validRevenue := fun _ => instDecidableAnd

/-- The JS comparator sort `(a, b) => a.period.localeCompare(b.period)` is a
stable ascending sort by period; code-point comparison of the period labels
models `localeCompare`. Stable insertion sort with `a.period ≤ b.period`. -/
def periodLe (a b : FinancialStatement) : Prop := ¬ b.period < a.period

instance : DecidableRel periodLe := fun _ _ => instDecidableNot

/-- `statements.filter((s) => s.revenue && s.revenue > 0).sort(...)`. -/
def sortedValid (stmts : List FinancialStatement) : List FinancialStatement :=
  List.insertionSort periodLe (stmts.filter (fun s => decide (validRevenue s)))

/-- Number of supplied statements with a present, strictly positive revenue. -/
def countValid (stmts : List FinancialStatement) : ℕ :=
  (stmts.filter (fun s => decide (validRevenue s))).length

/-- The period label of the last ascending-sorted valid statement
(`sorted[sorted.length - 1].period`; `""` on the empty list, which
`forecastRevenue` never reaches). -/
def lastSortedPeriod (stmts : List FinancialStatement) : String :=
  (((sortedValid stmts).map (fun s => s.period)).getLastD "")

/-- Digit value of a digit character. -/
def digitVal (c : Char) : ℕ := c.toNat - 48

/-- One attempt of the regex `(\d{4})(?:-Q(\d))?` at the head of the list:
exactly four digits, then optionally `-Q` and one digit. -/
def tryMatchAt : List Char → Option (ℕ × Option ℕ)
  | a :: b :: c :: d :: rest =>
    if a.isDigit && b.isDigit && c.isDigit && d.isDigit then
      let year := digitVal a * 1000 + digitVal b * 100 + digitVal c * 10 + digitVal d
      match rest with
      | '-' :: 'Q' :: e :: _ => if e.isDigit then some (year, some (digitVal e)) else some (year, none)
      | _ => some (year, none)
    else none
  | _ => none

/-- `lastPeriod.match(/(\d{4})(?:-Q(\d))?/)`: the first position, scanning
left to right, where the pattern matches. -/
def scanMatch : List Char → Option (ℕ × Option ℕ)
  | [] => none
  | c :: rest =>
    match tryMatchAt (c :: rest) with
    | some r => some r
    | none => scanMatch rest

/-- `ForecastingService.getNextPeriod`: quarter-aware period advancement.
A parsed quarter of `0` is falsy in JS (`if (quarter)`) and falls through to
the annual branch, as does an absent quarter group. -/
def getNextPeriod (lastPeriod : String) (periodsAhead : ℕ) : String :=
  match scanMatch lastPeriod.data with
  | none => "Future+" ++ toString periodsAhead
  | some (year, some q) =>
    if q = 0 then toString (year + periodsAhead)
    else
      let totalQuarters := (q - 1) + periodsAhead
      toString (year + totalQuarters / 4) ++ "-Q" ++ toString (totalQuarters % 4 + 1)
  | some (year, none) => toString (year + periodsAhead)

/-- Per-step fractional growth rates between consecutive revenues. -/
def growthRatesOf (revs : List ℚ) : List ℚ :=
  List.zipWith (fun p c => (c - p) / p) revs revs.tail

/-- `ForecastingService.forecastRevenue`: throws with fewer than 2 statements,
throws again when fewer than 2 remain after the positive-revenue filter,
otherwise compounds the mean historical growth rate for each step ahead. -/
def forecastRevenue (stmts : List FinancialStatement) (periodsAhead : ℕ) :
    Except String (List RevenueForecast) :=
  if stmts.length < 2 then .error "at least 2 fiscal periods are required for forecasting"
  else
    let sorted := sortedValid stmts
    if sorted.length < 2 then .error "not enough data for forecasting"
    else
      let revs := sorted.map (fun s => s.revenue.getD 0)
      let growthRates := growthRatesOf revs
      let avgGrowthRate := growthRates.sum / (growthRates.length : ℚ)
      let lastRevenue := revs.getLastD 0
      let lastPeriod := lastSortedPeriod stmts
      .ok ((List.range periodsAhead).map (fun j =>
        { period := getNextPeriod lastPeriod (j + 1)
          predictedRevenue := jsRound (lastRevenue * (1 + avgGrowthRate) ^ (j + 1))
          growthRate := avgGrowthRate }))

/-- `true` exactly on the `Except.error` branch (a thrown forecast error). -/
def isError : Except String (List RevenueForecast) → Bool
  | .error _ => true
  | .ok _ => false

/-- Number of forecasts of a successful call. -/
def okLength : Except String (List RevenueForecast) → Option ℕ
  | .error _ => none
  | .ok l => some l.length

/-- Period labels of a successful call. -/
def okPeriods : Except String (List RevenueForecast) → Option (List String)
  | .error _ => none
  | .ok l => some (l.map (fun f => f.period))

end ForecastingService

namespace ScoringService

open FinancialRatioService FraudDetectionService

inductive Rating
  | AAA
  | AA
  | A
  | BBB
  | BB
  | B
  | CCC
  | CC
  | C
  | D
deriving DecidableEq

/-- `ScoringService.calculateRating`: credit-style rating bands. -/
def calculateRating (score : ℚ) : Rating :=
  if 95 ≤ score then .AAA
  else if 90 ≤ score then .AA
  else if 80 ≤ score then .A
  else if 70 ≤ score then .BBB
  else if 60 ≤ score then .BB
  else if 50 ≤ score then .B
  else if 40 ≤ score then .CCC
  else if 30 ≤ score then .CC
  else if 20 ≤ score then .C
  else .D

/-- The final weighted score (`WeightedScore` in the source; the Persian
recommendation text is presentation data and is not modelled). -/
structure WeightedScore where
  finalScore : ℚ
  liquidityIndex : ℚ
  leverageIndex : ℚ
  profitabilityIndex : ℚ
  efficiencyIndex : ℚ
  fraudRiskIndex : ℚ
  rating : Rating
deriving DecidableEq

/-- `ScoringService.calculateWeightedScore`: combines the ratio category
scores and the fraud analysis. The rating is computed from the unrounded
final score; every returned numeric field is rounded to 2 decimals. -/
def calculateWeightedScore (s : FinancialStatement) (prevs : List FinancialStatement) :
    WeightedScore :=
  let ratioAnalysis := FinancialRatioService.analyzeStatement s
  let fraudAnalysis := FraudDetectionService.analyzeStatement s prevs
  let liquidityIndex := ratioAnalysis.categoryScores.liquidity
  let leverageIndex := ratioAnalysis.categoryScores.leverage
  let profitabilityIndex := ratioAnalysis.categoryScores.profitability
  let efficiencyIndex := ratioAnalysis.categoryScores.efficiency
  let fraudRiskIndex := 100 - fraudAnalysis.overallFraudScore
  let finalScore :=
    liquidityIndex * 0.2 + leverageIndex * 0.2 + profitabilityIndex * 0.3 +
      efficiencyIndex * 0.2 + fraudRiskIndex * 0.1
  { finalScore := round2 finalScore
    liquidityIndex := round2 liquidityIndex
    leverageIndex := round2 leverageIndex
    profitabilityIndex := round2 profitabilityIndex
    efficiencyIndex := round2 efficiencyIndex
    fraudRiskIndex := round2 fraudRiskIndex
    rating := calculateRating finalScore }

end ScoringService

/-! ### The guard table of §4.1

For each named ratio, the presence / non-zero-denominator condition the
specification requires before the ratio may be emitted. -/

/-- Required-data condition per ratio name: all required fields present and
the denominator non-zero (`truthy f` = `f` present and non-zero; `equityOf`
is derived from mandatory fields, so only its non-vanishing is required). -/
def ratioDataOk (s : FinancialStatement) : String → Prop
  | "Current Ratio" => s.current_assets.isSome ∧ truthy s.current_liabilities
  | "Quick Ratio" =>
      s.current_assets.isSome ∧ s.inventory.isSome ∧ truthy s.current_liabilities
  | "Cash Ratio" => s.cash.isSome ∧ truthy s.current_liabilities
  | "Debt to Equity" => equityOf s ≠ 0
  | "Debt Ratio" => s.assets ≠ 0
  | "Times Interest Earned" => s.ebit.isSome ∧ truthy s.interest_expense
  | "Net Profit Margin" => s.net_income.isSome ∧ truthy s.revenue
  | "Return on Assets (ROA)" => s.net_income.isSome ∧ s.assets ≠ 0
  | "Return on Equity (ROE)" => s.net_income.isSome ∧ equityOf s ≠ 0
  | "Gross Profit Margin" => s.gross_profit.isSome ∧ truthy s.revenue
  | "Asset Turnover" => s.revenue.isSome ∧ s.assets ≠ 0
  | "Inventory Turnover" => s.cogs.isSome ∧ truthy s.inventory
  | "Receivables Turnover" => s.revenue.isSome ∧ truthy s.accounts_receivable
  | _ => False

/-! ### Concrete statements used by counterexamples and witnesses -/

/-- The full mock statement of the repository's own service tests. -/
def mockStatement : FinancialStatement :=
  { period := "1402-Q1", assets := 5000000, liabilities := 2000000, equity := some 3000000,
    current_assets := some 2000000, current_liabilities := some 1000000,
    inventory := some 500000, cash := some 300000, revenue := some 3000000,
    cogs := some 2000000, ebit := some 600000, interest_expense := some 100000,
    net_income := some 450000, operating_cf := some 500000 }

/-- A statement whose three computed fraud indicators score 0, 90 and 80, so
the overall fraud score is the non-2-decimal value 170/3. -/
def exStmtC1 : FinancialStatement :=
  { period := "1402", assets := 1000, liabilities := 500,
    net_income := some 1000, operating_cf := some 400 }

/-- A statement with raw Z-Score 0.6·(500/500) + 1.0·(1212/1000) = 1.812:
Grey zone, but the rounded `zScore` field is 1.81. -/
def exStmtC4 : FinancialStatement :=
  { period := "1402", assets := 1000, liabilities := 500, revenue := some 1212 }

/-- A statement with raw Z-Score 0.6 + 5.0 = 5.6: Safe zone. -/
def exStmtC4safe : FinancialStatement :=
  { period := "1402", assets := 1000, liabilities := 500, revenue := some 5000 }

/-- A statement with raw Z-Score 0.6: Distress zone. -/
def exStmtC4dist : FinancialStatement :=
  { period := "1402", assets := 1000, liabilities := 500 }

/-- A statement with `assets = 0`: the Debt Ratio denominator vanishes. -/
def exStmtC5 : FinancialStatement :=
  { period := "1402", assets := 0, liabilities := 100 }

/-- CFO 200,000 against net income 450,000 (CFO/NI < 0.5). -/
def exStmtC6 : FinancialStatement :=
  { period := "1402", assets := 5000000, liabilities := 2000000,
    net_income := some 450000, operating_cf := some 200000 }

/-- A present-but-zero operating cash flow with non-zero net income. -/
def exStmtC6zero : FinancialStatement :=
  { period := "1402", assets := 5000000, liabilities := 2000000,
    net_income := some 450000, operating_cf := some 0 }

/-- A statement whose revenue is present with value exactly 0. -/
def exStmtC7 : FinancialStatement :=
  { period := "1402", assets := 1000, liabilities := 500, revenue := some 0 }

/-- A statement whose equity is present with value exactly 0. -/
def exStmtC10 : FinancialStatement :=
  { period := "1402", assets := 1000, liabilities := 400, equity := some 0,
    net_income := some 100, revenue := some 1200 }

/-- Quarterly history fixture (the repository test's forecast fixture). -/
def histStmt (p : String) (r : ℚ) : FinancialStatement :=
  { period := p, assets := 4000000, liabilities := 1500000, revenue := some r }

/-- Four ascending quarters `1400-Q1` .. `1400-Q4` with growing revenue. -/
def exHistory : List FinancialStatement :=
  [histStmt "1400-Q1" 2000000, histStmt "1400-Q2" 2200000,
    histStmt "1400-Q3" 2400000, histStmt "1400-Q4" 2600000]

/-- A score within the documented 0..100 range. -/
def scoreInRange (q : ℚ) : Prop := 0 ≤ q ∧ q ≤ 100

instance : DecidablePred scoreInRange := fun _ => instDecidableAnd

/-! ## Theorems -/

@[simp] theorem truthy_none : ¬ truthy none := fun h => h

@[simp] theorem truthy_some (v : ℚ) : truthy (some v) ↔ v ≠ 0 := Iff.rfl

theorem equityOf_some_zero {s : FinancialStatement} (h : s.equity = some 0) :
    equityOf s = s.assets - s.liabilities := by
  simp [equityOf, h]

theorem equityOf_erase (s : FinancialStatement) :
    equityOf { s with equity := none } = s.assets - s.liabilities := by
  simp [equityOf]

/-- Claim C10: a statement whose equity field is present with value exactly 0
behaves, in every equity-consuming operation (leverage ratios, ROE, the
financial risk assessment, Z-Score component 4), as if equity were absent:
equity is derived as assets − liabilities. -/
theorem claim_C10 (s : FinancialStatement) (h : s.equity = some 0) :
    equityOf s = s.assets - s.liabilities ∧
    FinancialRatioService.calculateLeverageRatios s =
      FinancialRatioService.calculateLeverageRatios { s with equity := none } ∧
    FinancialRatioService.calculateProfitabilityRatios s =
      FinancialRatioService.calculateProfitabilityRatios { s with equity := none } ∧
    RiskManagementService.assessFinancialRisk s =
      RiskManagementService.assessFinancialRisk { s with equity := none } ∧
    ForecastingService.calculateZScore s =
      ForecastingService.calculateZScore { s with equity := none } := by
  have he := equityOf_some_zero h
  have he' := equityOf_erase s
  refine ⟨he, ?_, ?_, ?_, ?_⟩
  · simp [FinancialRatioService.calculateLeverageRatios,
      FinancialRatioService.debtToEquityItem, FinancialRatioService.debtRatioItem,
      FinancialRatioService.timesInterestEarnedItem, he, he']
  · simp [FinancialRatioService.calculateProfitabilityRatios,
      FinancialRatioService.netProfitMarginItem, FinancialRatioService.returnOnAssetsItem,
      FinancialRatioService.returnOnEquityItem, FinancialRatioService.grossProfitMarginItem,
      he, he']
  · simp [RiskManagementService.assessFinancialRisk, he, he']
  · simp [ForecastingService.calculateZScore, he, he']

/-- Witness for C10 at a concrete statement with equity given as 0. -/
theorem claim_C10_witness :
    exStmtC10.equity = some 0 ∧
    equityOf exStmtC10 = exStmtC10.assets - exStmtC10.liabilities ∧
    ForecastingService.calculateZScore exStmtC10 =
      ForecastingService.calculateZScore { exStmtC10 with equity := none } :=
  ⟨rfl, (claim_C10 exStmtC10 rfl).1, (claim_C10 exStmtC10 rfl).2.2.2.2⟩

/-- Claim C6 (amended): the Quality of Earnings indicator applies its
CFO/Net-Income score table only when operating cash flow and net income are
both present **and non-zero** (JS truthiness makes a present zero
`operating_cf` abstain); otherwise it scores 0. -/
theorem claim_C6 (s : FinancialStatement) :
    (truthy s.operating_cf ∧ truthy s.net_income →
      ((s.operating_cf.getD 0 / s.net_income.getD 0 < 0.5 →
          FraudDetectionService.qualityOfEarnings s =
            ⟨.QualityOfEarnings, .Critical, 90⟩) ∧
        (0.5 ≤ s.operating_cf.getD 0 / s.net_income.getD 0 →
          s.operating_cf.getD 0 / s.net_income.getD 0 < 0.8 →
          FraudDetectionService.qualityOfEarnings s = ⟨.QualityOfEarnings, .High, 60⟩) ∧
        (0.8 ≤ s.operating_cf.getD 0 / s.net_income.getD 0 →
          s.operating_cf.getD 0 / s.net_income.getD 0 < 1 →
          FraudDetectionService.qualityOfEarnings s = ⟨.QualityOfEarnings, .Medium, 30⟩) ∧
        (1 ≤ s.operating_cf.getD 0 / s.net_income.getD 0 →
          (FraudDetectionService.qualityOfEarnings s).score = 0))) ∧
    (¬ (truthy s.operating_cf ∧ truthy s.net_income) →
      (FraudDetectionService.qualityOfEarnings s).score = 0) := by
  constructor
  · rintro ⟨h1, h2⟩
    refine ⟨fun ha => ?_, fun ha hb => ?_, fun ha hb => ?_, fun ha => ?_⟩ <;>
      simp only [FraudDetectionService.qualityOfEarnings] <;>
        split_ifs <;> first | rfl | tauto | linarith
  · intro h
    unfold FraudDetectionService.qualityOfEarnings
    rw [if_pos (not_and_or.mp h)]

/-- Witness for C6 at CFO = 200,000, NI = 450,000 (table row `< 0.5`). -/
theorem claim_C6_witness :
    FraudDetectionService.qualityOfEarnings exStmtC6 =
      ⟨.QualityOfEarnings, .Critical, 90⟩ :=
  ((claim_C6 exStmtC6).1 (by norm_num [exStmtC6])).1 (by norm_num [exStmtC6])

/-- Counterexample to C6 as stated: `operating_cf` present with value 0 and
non-zero `net_income` give ratio 0 < 0.5, yet the indicator scores 0, not
90/Critical — a present zero CFO abstains. -/
theorem claim_C6_counterexample :
    exStmtC6zero.operating_cf.isSome ∧
    exStmtC6zero.net_income.isSome ∧ exStmtC6zero.net_income.getD 0 ≠ 0 ∧
    exStmtC6zero.operating_cf.getD 0 / exStmtC6zero.net_income.getD 0 < 0.5 ∧
    (FraudDetectionService.qualityOfEarnings exStmtC6zero).score = 0 ∧
    (FraudDetectionService.qualityOfEarnings exStmtC6zero).score ≠ 90 := by
  norm_num [FraudDetectionService.qualityOfEarnings, exStmtC6zero, truthy]

theorem round2_gt_299 {x : ℚ} (h : (2.99 : ℚ) < round2 x) : (2.99 : ℚ) < x := by
  unfold round2 jsRound at h
  have h1 : (299 : ℚ) < ((⌊x * 100 + 1/2⌋ : ℤ) : ℚ) := by linarith
  have h2 : (300 : ℤ) ≤ ⌊x * 100 + 1/2⌋ := by exact_mod_cast h1
  have h3 : (300 : ℚ) ≤ x * 100 + 1/2 := by exact_mod_cast Int.le_floor.mp h2
  linarith

theorem round2_lt_181 {x : ℚ} (h : round2 x < (1.81 : ℚ)) : x ≤ (1.81 : ℚ) := by
  unfold round2 jsRound at h
  have h1 : ((⌊x * 100 + 1/2⌋ : ℤ) : ℚ) < 181 := by linarith
  have h2 : ⌊x * 100 + 1/2⌋ < (181 : ℤ) := by exact_mod_cast h1
  have h3 : x * 100 + 1/2 < (181 : ℚ) := by exact_mod_cast Int.floor_lt.mp h2
  linarith

/-- Zone/risk consistency of the Z-Score branching, for an arbitrary raw
Z value. -/
theorem zscore_zone_pair (z : ℚ) :
    ((2.99 : ℚ) < round2 z →
      (if z > 2.99 then
          ((ForecastingService.Zone.Safe, FraudDetectionService.Severity.Low) :
            ForecastingService.Zone × FraudDetectionService.Severity)
        else if z > 1.81 then (.Grey, .Medium)
        else (.Distress, .High)).1 = ForecastingService.Zone.Safe ∧
      (if z > 2.99 then
          ((ForecastingService.Zone.Safe, FraudDetectionService.Severity.Low) :
            ForecastingService.Zone × FraudDetectionService.Severity)
        else if z > 1.81 then (.Grey, .Medium)
        else (.Distress, .High)).2 = FraudDetectionService.Severity.Low) ∧
    (round2 z < (1.81 : ℚ) →
      (if z > 2.99 then
          ((ForecastingService.Zone.Safe, FraudDetectionService.Severity.Low) :
            ForecastingService.Zone × FraudDetectionService.Severity)
        else if z > 1.81 then (.Grey, .Medium)
        else (.Distress, .High)).1 = ForecastingService.Zone.Distress ∧
      (if z > 2.99 then
          ((ForecastingService.Zone.Safe, FraudDetectionService.Severity.Low) :
            ForecastingService.Zone × FraudDetectionService.Severity)
        else if z > 1.81 then (.Grey, .Medium)
        else (.Distress, .High)).2 = FraudDetectionService.Severity.High) := by
  split_ifs with h1 h2
  · exact ⟨fun _ => ⟨rfl, rfl⟩, fun hlt => absurd (round2_lt_181 hlt) (by linarith)⟩
  · exact ⟨fun hgt => absurd (round2_gt_299 hgt) (by linarith),
      fun hlt => absurd (round2_lt_181 hlt) (by linarith)⟩
  · exact ⟨fun hgt => absurd (round2_gt_299 hgt) (by linarith), fun _ => ⟨rfl, rfl⟩⟩

/-- Claim C4 (amended): the returned `ZScoreResult` is consistent with the
numeric boundaries through the rounded `zScore` field as follows: a field
value above 2.99 implies zone Safe and bankruptcy risk Low, and a field value
strictly below 1.81 implies zone Distress and risk High. (A field value of
exactly 1.81 can come from a raw Z of up to 1.815, which is already Grey.) -/
theorem claim_C4 (s : FinancialStatement) :
    ((2.99 : ℚ) < (ForecastingService.calculateZScore s).zScore →
      (ForecastingService.calculateZScore s).zone = ForecastingService.Zone.Safe ∧
      (ForecastingService.calculateZScore s).bankruptcyRisk =
        FraudDetectionService.Severity.Low) ∧
    ((ForecastingService.calculateZScore s).zScore < (1.81 : ℚ) →
      (ForecastingService.calculateZScore s).zone = ForecastingService.Zone.Distress ∧
      (ForecastingService.calculateZScore s).bankruptcyRisk =
        FraudDetectionService.Severity.High) := by
  simp only [ForecastingService.calculateZScore]
  exact zscore_zone_pair _

/-- Witness for C4: a Safe-zone statement (raw Z = 5.6) and a Distress-zone
statement (raw Z = 0.6). -/
theorem claim_C4_witness :
    ((2.99 : ℚ) < (ForecastingService.calculateZScore exStmtC4safe).zScore ∧
      (ForecastingService.calculateZScore exStmtC4safe).zone = ForecastingService.Zone.Safe ∧
      (ForecastingService.calculateZScore exStmtC4safe).bankruptcyRisk =
        FraudDetectionService.Severity.Low) ∧
    ((ForecastingService.calculateZScore exStmtC4dist).zScore < (1.81 : ℚ) ∧
      (ForecastingService.calculateZScore exStmtC4dist).zone = ForecastingService.Zone.Distress ∧
      (ForecastingService.calculateZScore exStmtC4dist).bankruptcyRisk =
        FraudDetectionService.Severity.High) := by
  have hs : (2.99 : ℚ) < (ForecastingService.calculateZScore exStmtC4safe).zScore := by
    norm_num [ForecastingService.calculateZScore, exStmtC4safe, equityOf, round2, jsRound]
  have hd : (ForecastingService.calculateZScore exStmtC4dist).zScore < (1.81 : ℚ) := by
    norm_num [ForecastingService.calculateZScore, exStmtC4dist, equityOf, round2, jsRound]
  exact ⟨⟨hs, (claim_C4 exStmtC4safe).1 hs⟩, ⟨hd, (claim_C4 exStmtC4dist).2 hd⟩⟩

/-- Counterexample to C4 as stated: raw Z = 1.812 rounds to a `zScore` field
of 1.81 (≤ 1.81), yet the zone is Grey with risk Medium, not Distress/High. -/
theorem claim_C4_counterexample :
    (ForecastingService.calculateZScore exStmtC4).zScore ≤ (1.81 : ℚ) ∧
    (ForecastingService.calculateZScore exStmtC4).zone ≠ ForecastingService.Zone.Distress ∧
    (ForecastingService.calculateZScore exStmtC4).bankruptcyRisk ≠
      FraudDetectionService.Severity.High := by
  refine ⟨?_, ?_, ?_⟩
  · norm_num [ForecastingService.calculateZScore, exStmtC4, equityOf, round2, jsRound]
  · norm_num [ForecastingService.calculateZScore, exStmtC4, equityOf, round2, jsRound]
    decide
  · norm_num [ForecastingService.calculateZScore, exStmtC4, equityOf, round2, jsRound]
    decide

theorem truthy_isSome {o : Option ℚ} (h : truthy o) : o.isSome := by
  cases o
  · exact absurd h truthy_none
  · rfl

theorem mem_currentRatioItem {s : FinancialStatement} {r : FinancialRatioService.RatioRecord}
    (h : r ∈ FinancialRatioService.currentRatioItem s) :
    r.name = "Current Ratio" ∧ r.category = FinancialRatioService.RatioCategory.Liquidity ∧
      ratioDataOk s r.name := by
  unfold FinancialRatioService.currentRatioItem at h
  split_ifs at h with hg
  · simp only [List.mem_singleton] at h
    subst h
    exact ⟨rfl, rfl, truthy_isSome hg.1, hg.2⟩
  · cases h

theorem mem_quickRatioItem {s : FinancialStatement} {r : FinancialRatioService.RatioRecord}
    (h : r ∈ FinancialRatioService.quickRatioItem s) :
    r.name = "Quick Ratio" ∧ r.category = FinancialRatioService.RatioCategory.Liquidity ∧
      ratioDataOk s r.name := by
  unfold FinancialRatioService.quickRatioItem at h
  split_ifs at h with hg
  · simp only [List.mem_singleton] at h
    subst h
    exact ⟨rfl, rfl, truthy_isSome hg.1, hg.2.1, hg.2.2⟩
  · cases h

theorem mem_cashRatioItem {s : FinancialStatement} {r : FinancialRatioService.RatioRecord}
    (h : r ∈ FinancialRatioService.cashRatioItem s) :
    r.name = "Cash Ratio" ∧ r.category = FinancialRatioService.RatioCategory.Liquidity ∧
      ratioDataOk s r.name := by
  unfold FinancialRatioService.cashRatioItem at h
  split_ifs at h with hg
  · simp only [List.mem_singleton] at h
    subst h
    exact ⟨rfl, rfl, truthy_isSome hg.1, hg.2⟩
  · cases h

theorem mem_debtToEquityItem {s : FinancialStatement} {r : FinancialRatioService.RatioRecord}
    (h : r ∈ FinancialRatioService.debtToEquityItem s) :
    r.name = "Debt to Equity" ∧ r.category = FinancialRatioService.RatioCategory.Leverage ∧
      ratioDataOk s r.name := by
  unfold FinancialRatioService.debtToEquityItem at h
  split_ifs at h with hg
  · simp only [List.mem_singleton] at h
    subst h
    exact ⟨rfl, rfl, ne_of_gt hg⟩
  · cases h

theorem mem_debtRatioItem {s : FinancialStatement} {r : FinancialRatioService.RatioRecord}
    (h : r ∈ FinancialRatioService.debtRatioItem s) :
    r.name = "Debt Ratio" ∧ r.category = FinancialRatioService.RatioCategory.Leverage := by
  unfold FinancialRatioService.debtRatioItem at h
  simp only [List.mem_singleton] at h
  subst h
  exact ⟨rfl, rfl⟩

theorem mem_timesInterestEarnedItem {s : FinancialStatement}
    {r : FinancialRatioService.RatioRecord}
    (h : r ∈ FinancialRatioService.timesInterestEarnedItem s) :
    r.name = "Times Interest Earned" ∧
      r.category = FinancialRatioService.RatioCategory.Leverage ∧ ratioDataOk s r.name := by
  unfold FinancialRatioService.timesInterestEarnedItem at h
  split_ifs at h with hg
  · simp only [List.mem_singleton] at h
    subst h
    exact ⟨rfl, rfl, truthy_isSome hg.1, hg.2.1⟩
  · cases h

theorem mem_netProfitMarginItem {s : FinancialStatement} {r : FinancialRatioService.RatioRecord}
    (h : r ∈ FinancialRatioService.netProfitMarginItem s) :
    r.name = "Net Profit Margin" ∧
      r.category = FinancialRatioService.RatioCategory.Profitability ∧ ratioDataOk s r.name := by
  unfold FinancialRatioService.netProfitMarginItem at h
  split_ifs at h with hg
  · simp only [List.mem_singleton] at h
    subst h
    exact ⟨rfl, rfl, truthy_isSome hg.1, hg.2.1⟩
  · cases h

theorem mem_returnOnAssetsItem {s : FinancialStatement} {r : FinancialRatioService.RatioRecord}
    (h : r ∈ FinancialRatioService.returnOnAssetsItem s) :
    r.name = "Return on Assets (ROA)" ∧
      r.category = FinancialRatioService.RatioCategory.Profitability ∧ ratioDataOk s r.name := by
  unfold FinancialRatioService.returnOnAssetsItem at h
  split_ifs at h with hg
  · simp only [List.mem_singleton] at h
    subst h
    exact ⟨rfl, rfl, truthy_isSome hg.1, ne_of_gt hg.2⟩
  · cases h

theorem mem_returnOnEquityItem {s : FinancialStatement} {r : FinancialRatioService.RatioRecord}
    (h : r ∈ FinancialRatioService.returnOnEquityItem s) :
    r.name = "Return on Equity (ROE)" ∧
      r.category = FinancialRatioService.RatioCategory.Profitability ∧ ratioDataOk s r.name := by
  unfold FinancialRatioService.returnOnEquityItem at h
  split_ifs at h with hg
  · simp only [List.mem_singleton] at h
    subst h
    exact ⟨rfl, rfl, truthy_isSome hg.1, ne_of_gt hg.2⟩
  · cases h

theorem mem_grossProfitMarginItem {s : FinancialStatement}
    {r : FinancialRatioService.RatioRecord}
    (h : r ∈ FinancialRatioService.grossProfitMarginItem s) :
    r.name = "Gross Profit Margin" ∧
      r.category = FinancialRatioService.RatioCategory.Profitability ∧ ratioDataOk s r.name := by
  unfold FinancialRatioService.grossProfitMarginItem at h
  split_ifs at h with hg
  · simp only [List.mem_singleton] at h
    subst h
    exact ⟨rfl, rfl, truthy_isSome hg.1, hg.2.1⟩
  · cases h

theorem mem_assetTurnoverItem {s : FinancialStatement} {r : FinancialRatioService.RatioRecord}
    (h : r ∈ FinancialRatioService.assetTurnoverItem s) :
    r.name = "Asset Turnover" ∧
      r.category = FinancialRatioService.RatioCategory.Efficiency ∧ ratioDataOk s r.name := by
  unfold FinancialRatioService.assetTurnoverItem at h
  split_ifs at h with hg
  · simp only [List.mem_singleton] at h
    subst h
    exact ⟨rfl, rfl, truthy_isSome hg.1, ne_of_gt hg.2⟩
  · cases h

theorem mem_inventoryTurnoverItem {s : FinancialStatement}
    {r : FinancialRatioService.RatioRecord}
    (h : r ∈ FinancialRatioService.inventoryTurnoverItem s) :
    r.name = "Inventory Turnover" ∧
      r.category = FinancialRatioService.RatioCategory.Efficiency ∧ ratioDataOk s r.name := by
  unfold FinancialRatioService.inventoryTurnoverItem at h
  split_ifs at h with hg
  · simp only [List.mem_singleton] at h
    subst h
    exact ⟨rfl, rfl, truthy_isSome hg.1, hg.2.1⟩
  · cases h

theorem mem_receivablesTurnoverItem {s : FinancialStatement}
    {r : FinancialRatioService.RatioRecord}
    (h : r ∈ FinancialRatioService.receivablesTurnoverItem s) :
    r.name = "Receivables Turnover" ∧
      r.category = FinancialRatioService.RatioCategory.Efficiency ∧ ratioDataOk s r.name := by
  unfold FinancialRatioService.receivablesTurnoverItem at h
  split_ifs at h with hg
  · simp only [List.mem_singleton] at h
    subst h
    exact ⟨rfl, rfl, truthy_isSome hg.1, hg.2.1⟩
  · cases h

/-- Claim C5 (amended): every emitted ratio **except the Debt Ratio** is
emitted only when all of that ratio's required fields are present and its
denominator is non-zero; the Debt Ratio itself is always emitted, even for a
statement with assets = 0, where its denominator vanishes. -/
theorem claim_C5 (s : FinancialStatement) :
    (∀ r ∈ FinancialRatioService.calculateAllRatios s,
        r.name = "Debt Ratio" ∨ ratioDataOk s r.name) ∧
    (FinancialRatioService.calculateAllRatios s).any
        (fun r => r.name == "Debt Ratio") = true := by
  constructor
  · intro r hr
    simp only [FinancialRatioService.calculateAllRatios,
      FinancialRatioService.calculateLiquidityRatios,
      FinancialRatioService.calculateLeverageRatios,
      FinancialRatioService.calculateProfitabilityRatios,
      FinancialRatioService.calculateEfficiencyRatios,
      List.append_assoc, List.mem_append] at hr
    rcases hr with h|h|h|h|h|h|h|h|h|h|h|h|h
    · exact .inr (mem_currentRatioItem h).2.2
    · exact .inr (mem_quickRatioItem h).2.2
    · exact .inr (mem_cashRatioItem h).2.2
    · exact .inr (mem_debtToEquityItem h).2.2
    · exact .inl (mem_debtRatioItem h).1
    · exact .inr (mem_timesInterestEarnedItem h).2.2
    · exact .inr (mem_netProfitMarginItem h).2.2
    · exact .inr (mem_returnOnAssetsItem h).2.2
    · exact .inr (mem_returnOnEquityItem h).2.2
    · exact .inr (mem_grossProfitMarginItem h).2.2
    · exact .inr (mem_assetTurnoverItem h).2.2
    · exact .inr (mem_inventoryTurnoverItem h).2.2
    · exact .inr (mem_receivablesTurnoverItem h).2.2
  · simp [FinancialRatioService.calculateAllRatios,
      FinancialRatioService.calculateLeverageRatios, FinancialRatioService.debtRatioItem]

/-- Witness for C5: the Current Ratio emitted for the test mock statement has
its required data present with a non-zero denominator. -/
theorem claim_C5_witness :
    (⟨"Current Ratio", .Liquidity, 2, some 1.5, .Good⟩ :
        FinancialRatioService.RatioRecord).name = "Debt Ratio" ∨
      ratioDataOk mockStatement "Current Ratio" :=
  (claim_C5 mockStatement).1 ⟨"Current Ratio", .Liquidity, 2, some 1.5, .Good⟩
    (by norm_num [FinancialRatioService.calculateAllRatios,
      FinancialRatioService.calculateLiquidityRatios,
      FinancialRatioService.calculateLeverageRatios,
      FinancialRatioService.calculateProfitabilityRatios,
      FinancialRatioService.calculateEfficiencyRatios,
      FinancialRatioService.currentRatioItem, FinancialRatioService.quickRatioItem,
      FinancialRatioService.cashRatioItem, FinancialRatioService.debtToEquityItem,
      FinancialRatioService.debtRatioItem, FinancialRatioService.timesInterestEarnedItem,
      FinancialRatioService.netProfitMarginItem, FinancialRatioService.returnOnAssetsItem,
      FinancialRatioService.returnOnEquityItem, FinancialRatioService.grossProfitMarginItem,
      FinancialRatioService.assetTurnoverItem, FinancialRatioService.inventoryTurnoverItem,
      FinancialRatioService.receivablesTurnoverItem, mockStatement, truthy, equityOf])

/-- Counterexample to C5 as stated: for a statement with assets = 0 the Debt
Ratio is still emitted although its denominator (assets) is zero. -/
theorem claim_C5_counterexample :
    exStmtC5.assets = 0 ∧
    (FinancialRatioService.calculateAllRatios exStmtC5).any
        (fun r => r.name == "Debt Ratio") = true ∧
    ¬ ratioDataOk exStmtC5 "Debt Ratio" := by
  refine ⟨rfl, ?_, ?_⟩
  · simp [FinancialRatioService.calculateAllRatios,
      FinancialRatioService.calculateLeverageRatios, FinancialRatioService.debtRatioItem]
  · simp [ratioDataOk, exStmtC5]

theorem assessFinancialRisk_type (s : FinancialStatement) :
    (RiskManagementService.assessFinancialRisk s).riskType =
      RiskManagementService.RiskType.Financial := by
  simp only [RiskManagementService.assessFinancialRisk]
  split_ifs <;> rfl

theorem assessLiquidityRisk_type (s : FinancialStatement) :
    (RiskManagementService.assessLiquidityRisk s).riskType =
      RiskManagementService.RiskType.Liquidity := by
  simp only [RiskManagementService.assessLiquidityRisk]
  split_ifs <;> rfl

theorem assessOperationalRisk_type (s : FinancialStatement) :
    (RiskManagementService.assessOperationalRisk s).riskType =
      RiskManagementService.RiskType.Operational := by
  simp only [RiskManagementService.assessOperationalRisk]
  split_ifs <;> rfl

theorem assessMarketRisk_type (s : FinancialStatement) :
    (RiskManagementService.assessMarketRisk s).riskType =
      RiskManagementService.RiskType.Market := rfl

/-- Claim C7 (amended): `assessRisks` produces the Market assessment exactly
when revenue is present **and non-zero** (JS truthiness of
`if (statement.revenue)`); the overall risk score is the weighted sum of the
produced assessments' scores (weights Financial 0.30, Liquidity 0.30,
Operational 0.25, Market 0.15) divided by the sum of the weights of the
assessments actually produced — 1 with Market, 0.85 without — and the overall
risk level uses the thresholds ≥70 Critical, ≥50 High, ≥30 Medium, else Low. -/
theorem claim_C7 (s : FinancialStatement) :
    ((RiskManagementService.assessRisks s).assessments.any
        (fun a => decide (a.riskType = RiskManagementService.RiskType.Market)) =
      decide (truthy s.revenue)) ∧
    (RiskManagementService.assessRisks s).overallRiskScore =
      ((RiskManagementService.assessRisks s).assessments.map
          (fun a => a.score * RiskManagementService.riskWeight a.riskType)).sum /
        ((RiskManagementService.assessRisks s).assessments.map
          (fun a => RiskManagementService.riskWeight a.riskType)).sum ∧
    ((RiskManagementService.assessRisks s).assessments.map
        (fun a => RiskManagementService.riskWeight a.riskType)).sum =
      (if truthy s.revenue then 1 else 0.85) ∧
    (RiskManagementService.assessRisks s).riskLevel =
      (if 70 ≤ (RiskManagementService.assessRisks s).overallRiskScore then .Critical
       else if 50 ≤ (RiskManagementService.assessRisks s).overallRiskScore then .High
       else if 30 ≤ (RiskManagementService.assessRisks s).overallRiskScore then .Medium
       else FraudDetectionService.Severity.Low) := by
  have hw :
      ((RiskManagementService.assessRisks s).assessments.map
          (fun a => RiskManagementService.riskWeight a.riskType)).sum =
        (if truthy s.revenue then 1 else 0.85) := by
    by_cases hr : truthy s.revenue <;>
      simp [RiskManagementService.assessRisks, hr, assessFinancialRisk_type,
        assessLiquidityRisk_type, assessOperationalRisk_type, assessMarketRisk_type,
        RiskManagementService.riskWeight] <;> norm_num
  refine ⟨?_, ?_, hw, ?_⟩
  · by_cases hr : truthy s.revenue <;>
      simp [RiskManagementService.assessRisks, hr, assessFinancialRisk_type,
        assessLiquidityRisk_type, assessOperationalRisk_type, assessMarketRisk_type]
  · have hpos : (0 : ℚ) <
        ((RiskManagementService.assessRisks s).assessments.map
          (fun a => RiskManagementService.riskWeight a.riskType)).sum := by
      rw [hw]; split_ifs <;> norm_num
    have hne : (RiskManagementService.assessRisks s).assessments ≠ [] := by
      simp [RiskManagementService.assessRisks]
    show RiskManagementService.calculateOverallRisk
        (RiskManagementService.assessRisks s).assessments = _
    unfold RiskManagementService.calculateOverallRisk
    rw [if_neg hne, if_pos hpos]
  · rfl

/-- Counterexample to C7 as stated: a statement whose revenue field is present
with value exactly 0 produces no Market assessment. -/
theorem claim_C7_counterexample :
    exStmtC7.revenue.isSome ∧
    (RiskManagementService.assessRisks exStmtC7).assessments.any
        (fun a => decide (a.riskType = RiskManagementService.RiskType.Market)) = false := by
  refine ⟨rfl, ?_⟩
  simp [RiskManagementService.assessRisks, exStmtC7, truthy, assessFinancialRisk_type,
    assessLiquidityRisk_type, assessOperationalRisk_type]

theorem benfordLawAnalysis_flag (s : FinancialStatement) :
    (FraudDetectionService.benfordLawAnalysis s).flagType =
      FraudDetectionService.FlagType.Benford := by
  simp only [FraudDetectionService.benfordLawAnalysis]
  split_ifs <;> rfl

theorem qualityOfEarnings_flag (s : FinancialStatement) :
    (FraudDetectionService.qualityOfEarnings s).flagType =
      FraudDetectionService.FlagType.QualityOfEarnings := by
  simp only [FraudDetectionService.qualityOfEarnings]
  split_ifs <;> rfl

theorem receivableGrowthAnalysis_flag (cur prev : FinancialStatement) :
    (FraudDetectionService.receivableGrowthAnalysis cur prev).flagType =
      FraudDetectionService.FlagType.ReceivableGrowth := by
  simp only [FraudDetectionService.receivableGrowthAnalysis]
  split_ifs <;> rfl

theorem assetInflationAnalysis_flag (cur prev : FinancialStatement) :
    (FraudDetectionService.assetInflationAnalysis cur prev).flagType =
      FraudDetectionService.FlagType.AssetInflation := by
  simp only [FraudDetectionService.assetInflationAnalysis]
  split_ifs <;> rfl

theorem accrualCheck_flag (s : FinancialStatement) :
    (FraudDetectionService.accrualCheck s).flagType =
      FraudDetectionService.FlagType.Accrual := by
  simp only [FraudDetectionService.accrualCheck]
  split_ifs <;> rfl

/-- Claim C3: `analyzeStatement` returns the arithmetic mean (capped at 100)
of the scores of all computed indicators — all five when previous statements
are supplied (a non-empty list), Benford / Quality of Earnings / Accrual only
when they are not; the exposed `indicators` list is the computed indicators
filtered to score > 0; and the risk level uses the thresholds ≥70 Critical,
≥50 High, ≥30 Medium, else Low. -/
theorem claim_C3 (s : FinancialStatement) (prevs : List FinancialStatement) :
    (FraudDetectionService.analyzeStatement s prevs).overallFraudScore =
      min 100 (((FraudDetectionService.fraudIndicatorList s prevs).map
          (fun i => i.score)).sum /
        ((FraudDetectionService.fraudIndicatorList s prevs).length : ℚ)) ∧
    (FraudDetectionService.analyzeStatement s prevs).indicators =
      (FraudDetectionService.fraudIndicatorList s prevs).filter
        (fun i => decide (0 < i.score)) ∧
    (FraudDetectionService.fraudIndicatorList s prevs).map (fun i => i.flagType) =
      (if prevs = [] then
        [FraudDetectionService.FlagType.Benford, .QualityOfEarnings, .Accrual]
       else
        [FraudDetectionService.FlagType.Benford, .QualityOfEarnings, .ReceivableGrowth,
          .AssetInflation, .Accrual]) ∧
    (FraudDetectionService.analyzeStatement s prevs).riskLevel =
      (if 70 ≤ (FraudDetectionService.analyzeStatement s prevs).overallFraudScore then .Critical
       else if 50 ≤ (FraudDetectionService.analyzeStatement s prevs).overallFraudScore then .High
       else if 30 ≤ (FraudDetectionService.analyzeStatement s prevs).overallFraudScore then
         .Medium
       else FraudDetectionService.Severity.Low) := by
  refine ⟨?_, rfl, ?_, rfl⟩
  · cases prevs <;>
      simp [FraudDetectionService.analyzeStatement, FraudDetectionService.fraudIndicatorList,
        FraudDetectionService.calculateOverallFraudScore]
  · cases prevs <;>
      simp [FraudDetectionService.fraudIndicatorList, benfordLawAnalysis_flag,
        qualityOfEarnings_flag, receivableGrowthAnalysis_flag, assetInflationAnalysis_flag,
        accrualCheck_flag]

theorem benfordLawAnalysis_score_shape (s : FinancialStatement) :
    ∃ k : ℕ, (FraudDetectionService.benfordLawAnalysis s).score = 5 * k ∧ k ≤ 18 := by
  simp only [FraudDetectionService.benfordLawAnalysis]
  split_ifs
  exacts [⟨0, by norm_num⟩, ⟨16, by norm_num⟩, ⟨12, by norm_num⟩, ⟨8, by norm_num⟩,
    ⟨0, by norm_num⟩]

theorem qualityOfEarnings_score_shape (s : FinancialStatement) :
    ∃ k : ℕ, (FraudDetectionService.qualityOfEarnings s).score = 5 * k ∧ k ≤ 18 := by
  simp only [FraudDetectionService.qualityOfEarnings]
  split_ifs
  exacts [⟨0, by norm_num⟩, ⟨18, by norm_num⟩, ⟨12, by norm_num⟩, ⟨6, by norm_num⟩,
    ⟨0, by norm_num⟩]

theorem receivableGrowthAnalysis_score_shape (cur prev : FinancialStatement) :
    ∃ k : ℕ, (FraudDetectionService.receivableGrowthAnalysis cur prev).score = 5 * k ∧
      k ≤ 18 := by
  simp only [FraudDetectionService.receivableGrowthAnalysis]
  split_ifs
  exacts [⟨0, by norm_num⟩, ⟨0, by norm_num⟩, ⟨17, by norm_num⟩, ⟨13, by norm_num⟩,
    ⟨8, by norm_num⟩, ⟨0, by norm_num⟩]

theorem assetInflationAnalysis_score_shape (cur prev : FinancialStatement) :
    ∃ k : ℕ, (FraudDetectionService.assetInflationAnalysis cur prev).score = 5 * k ∧
      k ≤ 18 := by
  simp only [FraudDetectionService.assetInflationAnalysis]
  split_ifs
  exacts [⟨0, by norm_num⟩, ⟨15, by norm_num⟩, ⟨11, by norm_num⟩, ⟨7, by norm_num⟩,
    ⟨0, by norm_num⟩]

theorem accrualCheck_score_shape (s : FinancialStatement) :
    ∃ k : ℕ, (FraudDetectionService.accrualCheck s).score = 5 * k ∧ k ≤ 18 := by
  simp only [FraudDetectionService.accrualCheck]
  split_ifs
  exacts [⟨0, by norm_num⟩, ⟨16, by norm_num⟩, ⟨12, by norm_num⟩, ⟨7, by norm_num⟩,
    ⟨0, by norm_num⟩]

/-- Every computed fraud indicator's score is a multiple of 5 between 0 and 90. -/
theorem fraudIndicatorList_score_shape (s : FinancialStatement)
    (prevs : List FinancialStatement) :
    ∀ i ∈ FraudDetectionService.fraudIndicatorList s prevs,
      ∃ k : ℕ, i.score = 5 * k ∧ k ≤ 18 := by
  cases prevs <;> intro i hi <;>
    simp only [FraudDetectionService.fraudIndicatorList, List.mem_cons,
      List.mem_singleton, List.not_mem_nil, or_false] at hi
  · rcases hi with rfl | rfl | rfl
    · exact benfordLawAnalysis_score_shape s
    · exact qualityOfEarnings_score_shape s
    · exact accrualCheck_score_shape s
  · rcases hi with rfl | rfl | rfl | rfl | rfl
    · exact benfordLawAnalysis_score_shape s
    · exact qualityOfEarnings_score_shape s
    · exact receivableGrowthAnalysis_score_shape _ _
    · exact assetInflationAnalysis_score_shape _ _
    · exact accrualCheck_score_shape s

theorem score_shape_in_range {q : ℚ} (h : ∃ k : ℕ, q = 5 * k ∧ k ≤ 18) :
    scoreInRange q := by
  obtain ⟨k, rfl, hk⟩ := h
  constructor
  · positivity
  · have : (k : ℚ) ≤ 18 := by exact_mod_cast hk
    linarith

theorem calculateOverallFraudScore_bounds (l : List FraudDetectionService.FraudIndicator)
    (h : ∀ i ∈ l, 0 ≤ i.score) :
    scoreInRange (FraudDetectionService.calculateOverallFraudScore l) := by
  unfold FraudDetectionService.calculateOverallFraudScore
  split_ifs
  · exact ⟨le_refl 0, by norm_num⟩
  · refine ⟨le_min (by norm_num) ?_, min_le_left _ _⟩
    have hs : 0 ≤ (l.map (fun i => i.score)).sum :=
      List.sum_nonneg (by
        intro x hx
        obtain ⟨i, hi, rfl⟩ := List.mem_map.mp hx
        exact h i hi)
    positivity

theorem riskWeight_nonneg (t : RiskManagementService.RiskType) :
    0 ≤ RiskManagementService.riskWeight t := by
  cases t <;> norm_num [RiskManagementService.riskWeight]

theorem calculateOverallRisk_bounds (l : List RiskManagementService.RiskAssessment)
    (h : ∀ a ∈ l, scoreInRange a.score) :
    scoreInRange (RiskManagementService.calculateOverallRisk l) := by
  simp only [RiskManagementService.calculateOverallRisk]
  split_ifs with h0 hw
  · exact ⟨le_refl 0, by norm_num⟩
  · have hts : 0 ≤ (l.map (fun a => a.score * RiskManagementService.riskWeight a.riskType)).sum :=
      List.sum_nonneg (by
        intro x hx
        obtain ⟨a, ha, rfl⟩ := List.mem_map.mp hx
        exact mul_nonneg (h a ha).1 (riskWeight_nonneg _))
    have hcmp :
        (l.map (fun a => a.score * RiskManagementService.riskWeight a.riskType)).sum ≤
          100 * (l.map (fun a => RiskManagementService.riskWeight a.riskType)).sum := by
      rw [← List.sum_map_mul_left]
      refine List.sum_le_sum fun a ha => ?_
      exact mul_le_mul_of_nonneg_right (h a ha).2 (riskWeight_nonneg _)
    refine ⟨div_nonneg hts (le_of_lt hw), ?_⟩
    rw [div_le_iff₀ hw]
    linarith
  · exact ⟨le_refl 0, by norm_num⟩

theorem assessFinancialRisk_range (s : FinancialStatement) :
    scoreInRange (RiskManagementService.assessFinancialRisk s).score := by
  simp only [RiskManagementService.assessFinancialRisk]
  split_ifs <;> exact ⟨by norm_num, by norm_num⟩

theorem assessLiquidityRisk_range (s : FinancialStatement) :
    scoreInRange (RiskManagementService.assessLiquidityRisk s).score := by
  simp only [RiskManagementService.assessLiquidityRisk]
  split_ifs <;> exact ⟨by norm_num, by norm_num⟩

theorem assessOperationalRisk_range (s : FinancialStatement) :
    scoreInRange (RiskManagementService.assessOperationalRisk s).score := by
  simp only [RiskManagementService.assessOperationalRisk]
  split_ifs <;> exact ⟨by norm_num, by norm_num⟩

theorem assessMarketRisk_range (s : FinancialStatement) :
    scoreInRange (RiskManagementService.assessMarketRisk s).score := by
  simp only [RiskManagementService.assessMarketRisk]
  split_ifs <;> exact ⟨le_min (by norm_num) (by norm_num), min_le_left _ _⟩

theorem assessRisks_each_range (s : FinancialStatement) :
    ∀ a ∈ (RiskManagementService.assessRisks s).assessments, scoreInRange a.score := by
  intro a ha
  simp only [RiskManagementService.assessRisks] at ha
  rcases List.mem_append.mp ha with h | h
  · simp only [List.mem_cons, List.mem_singleton, List.not_mem_nil, or_false] at h
    rcases h with rfl | rfl | rfl
    · exact assessFinancialRisk_range s
    · exact assessLiquidityRisk_range s
    · exact assessOperationalRisk_range s
  · split_ifs at h
    · simp only [List.mem_singleton] at h
      subst h
      exact assessMarketRisk_range s
    · cases h

theorem ratioPoints_range (r : FinancialRatioService.RatioRecord) :
    scoreInRange (FinancialRatioService.ratioPoints r) := by
  rcases r with ⟨_, _, _, _, st⟩
  cases st <;> exact ⟨by norm_num [FinancialRatioService.ratioPoints],
    by norm_num [FinancialRatioService.ratioPoints]⟩

theorem averageScore_bounds (l : List ℚ) (h : ∀ x ∈ l, scoreInRange x) :
    scoreInRange (FinancialRatioService.averageScore l) := by
  unfold FinancialRatioService.averageScore
  split_ifs with h0
  · exact ⟨le_refl 0, by norm_num⟩
  · have hlen : (0 : ℚ) < (l.length : ℚ) := by
      exact_mod_cast List.length_pos.mpr h0
    constructor
    · exact div_nonneg (List.sum_nonneg fun x hx => (h x hx).1) hlen.le
    · rw [div_le_iff₀ hlen]
      have hb : l.sum ≤ l.length • (100 : ℚ) :=
        List.sum_le_card_nsmul l 100 fun x hx => (h x hx).2
      rw [nsmul_eq_mul] at hb
      linarith

theorem categoryScore_range (ratios : List FinancialRatioService.RatioRecord)
    (p : FinancialRatioService.RatioRecord → Bool) :
    scoreInRange (FinancialRatioService.averageScore
      ((ratios.filter p).map FinancialRatioService.ratioPoints)) := by
  refine averageScore_bounds _ ?_
  intro x hx
  obtain ⟨r, _, rfl⟩ := List.mem_map.mp hx
  exact ratioPoints_range r

theorem round2_nonneg {x : ℚ} (h : 0 ≤ x) : 0 ≤ round2 x := by
  unfold round2 jsRound
  have hf : (0 : ℤ) ≤ ⌊x * 100 + 1/2⌋ := by
    apply Int.le_floor.mpr
    push_cast
    linarith
  have hq : (0 : ℚ) ≤ ((⌊x * 100 + 1/2⌋ : ℤ) : ℚ) := by exact_mod_cast hf
  linarith

theorem round2_le_100 {x : ℚ} (h : x ≤ 100) : round2 x ≤ 100 := by
  unfold round2 jsRound
  have hf : ⌊x * 100 + 1/2⌋ < (10001 : ℤ) := by
    apply Int.floor_lt.mpr
    push_cast
    linarith
  have hq : ((⌊x * 100 + 1/2⌋ : ℤ) : ℚ) ≤ 10000 := by exact_mod_cast Int.lt_add_one_iff.mp hf
  linarith

/-- Claim C2: every individual fraud indicator score and risk assessment
score, and every aggregate score (overall fraud score, overall risk score,
the four ratio category scores, the final weighted score), lies in [0,100]. -/
theorem claim_C2 (s : FinancialStatement) (prevs : List FinancialStatement) :
    ((FraudDetectionService.fraudIndicatorList s prevs).all
        (fun i => decide (scoreInRange i.score)) = true) ∧
    ((RiskManagementService.assessRisks s).assessments.all
        (fun a => decide (scoreInRange a.score)) = true) ∧
    scoreInRange (FraudDetectionService.analyzeStatement s prevs).overallFraudScore ∧
    scoreInRange (RiskManagementService.assessRisks s).overallRiskScore ∧
    scoreInRange (FinancialRatioService.calculateCategoryScores
        (FinancialRatioService.calculateAllRatios s)).liquidity ∧
    scoreInRange (FinancialRatioService.calculateCategoryScores
        (FinancialRatioService.calculateAllRatios s)).leverage ∧
    scoreInRange (FinancialRatioService.calculateCategoryScores
        (FinancialRatioService.calculateAllRatios s)).profitability ∧
    scoreInRange (FinancialRatioService.calculateCategoryScores
        (FinancialRatioService.calculateAllRatios s)).efficiency ∧
    scoreInRange (ScoringService.calculateWeightedScore s prevs).finalScore := by
  have hind : ∀ i ∈ FraudDetectionService.fraudIndicatorList s prevs, scoreInRange i.score :=
    fun i hi => score_shape_in_range (fraudIndicatorList_score_shape s prevs i hi)
  have hofs : scoreInRange
      (FraudDetectionService.analyzeStatement s prevs).overallFraudScore :=
    calculateOverallFraudScore_bounds _ (fun i hi => (hind i hi).1)
  have hrisk : scoreInRange (RiskManagementService.assessRisks s).overallRiskScore :=
    calculateOverallRisk_bounds _ (assessRisks_each_range s)
  have hL := categoryScore_range (FinancialRatioService.calculateAllRatios s)
    (fun r => decide (r.category = FinancialRatioService.RatioCategory.Liquidity))
  have hLev := categoryScore_range (FinancialRatioService.calculateAllRatios s)
    (fun r => decide (r.category = FinancialRatioService.RatioCategory.Leverage))
  have hP := categoryScore_range (FinancialRatioService.calculateAllRatios s)
    (fun r => decide (r.category = FinancialRatioService.RatioCategory.Profitability))
  have hE := categoryScore_range (FinancialRatioService.calculateAllRatios s)
    (fun r => decide (r.category = FinancialRatioService.RatioCategory.Efficiency))
  refine ⟨List.all_eq_true.mpr fun i hi => decide_eq_true (hind i hi),
    List.all_eq_true.mpr fun a ha => decide_eq_true (assessRisks_each_range s a ha),
    hofs, hrisk, hL, hLev, hP, hE, ?_⟩
  show scoreInRange (round2
    ((FinancialRatioService.calculateCategoryScores
        (FinancialRatioService.calculateAllRatios s)).liquidity * 0.2 +
      (FinancialRatioService.calculateCategoryScores
        (FinancialRatioService.calculateAllRatios s)).leverage * 0.2 +
      (FinancialRatioService.calculateCategoryScores
        (FinancialRatioService.calculateAllRatios s)).profitability * 0.3 +
      (FinancialRatioService.calculateCategoryScores
        (FinancialRatioService.calculateAllRatios s)).efficiency * 0.2 +
      (100 - (FraudDetectionService.analyzeStatement s prevs).overallFraudScore) * 0.1))
  simp only [FinancialRatioService.calculateCategoryScores]
  obtain ⟨hL1, hL2⟩ := hL
  obtain ⟨hLev1, hLev2⟩ := hLev
  obtain ⟨hP1, hP2⟩ := hP
  obtain ⟨hE1, hE2⟩ := hE
  obtain ⟨ho1, ho2⟩ := hofs
  exact ⟨round2_nonneg (by linarith), round2_le_100 (by linarith)⟩

theorem sortedValid_length (stmts : List FinancialStatement) :
    (ForecastingService.sortedValid stmts).length = ForecastingService.countValid stmts := by
  unfold ForecastingService.sortedValid ForecastingService.countValid
  exact List.length_insertionSort _ _

/-- Claim C8: `forecastRevenue` raises an insufficient-data error exactly when
fewer than 2 of the supplied statements have a present, strictly positive
revenue; with at least 2 such statements it returns exactly `periodsAhead`
forecasts without raising. -/
theorem claim_C8 (stmts : List FinancialStatement) (n : ℕ) :
    (ForecastingService.isError (ForecastingService.forecastRevenue stmts n) =
      decide (ForecastingService.countValid stmts < 2)) ∧
    (2 ≤ ForecastingService.countValid stmts →
      ForecastingService.okLength (ForecastingService.forecastRevenue stmts n) = some n) := by
  have hcv : ForecastingService.countValid stmts ≤ stmts.length :=
    List.length_filter_le _ _
  constructor
  · simp only [ForecastingService.forecastRevenue]
    split_ifs with h1 h2
    · have hlt : ForecastingService.countValid stmts < 2 := lt_of_le_of_lt hcv h1
      simp [ForecastingService.isError, hlt]
    · have hlt : ForecastingService.countValid stmts < 2 := by
        rwa [sortedValid_length] at h2
      simp [ForecastingService.isError, hlt]
    · have hge : ¬ ForecastingService.countValid stmts < 2 := by
        rwa [sortedValid_length] at h2
      simp [ForecastingService.isError, hge]
  · intro hge
    simp only [ForecastingService.forecastRevenue]
    rw [if_neg (by omega), if_neg (by rw [sortedValid_length]; omega)]
    simp [ForecastingService.okLength]

/-- Witness for C8: the four-quarter history yields exactly 3 forecasts. -/
theorem claim_C8_witness :
    2 ≤ ForecastingService.countValid exHistory ∧
    ForecastingService.okLength (ForecastingService.forecastRevenue exHistory 3) = some 3 :=
  ⟨by decide, (claim_C8 exHistory 3).2 (by decide)⟩

/-- Claim C9: successful forecasts label the i-th forecast by advancing the
last ascending-sorted input period quarter-aware: the labels are
`getNextPeriod lastSortedPeriod (i+1)` in order, and on a four-digit-year
label `getNextPeriod` advances `"YYYY-Qn"` (digit quarter 1..4) by
`i` quarters modulo 4 carrying the year, and a plain `"YYYY"` label to
year + i. -/
theorem claim_C9 (stmts : List FinancialStatement) (n : ℕ) :
    (2 ≤ ForecastingService.countValid stmts →
      ForecastingService.okPeriods (ForecastingService.forecastRevenue stmts n) =
        some ((List.range n).map (fun j =>
          ForecastingService.getNextPeriod (ForecastingService.lastSortedPeriod stmts)
            (j + 1)))) ∧
    (∀ a b c d e : Char, ∀ i : ℕ,
      a.isDigit = true → b.isDigit = true → c.isDigit = true → d.isDigit = true →
      e.isDigit = true → 1 ≤ ForecastingService.digitVal e →
      ForecastingService.digitVal e ≤ 4 →
      ForecastingService.getNextPeriod (String.mk [a, b, c, d, '-', 'Q', e]) i =
        toString ((ForecastingService.digitVal a * 1000 + ForecastingService.digitVal b * 100 +
            ForecastingService.digitVal c * 10 + ForecastingService.digitVal d) +
          ((ForecastingService.digitVal e - 1) + i) / 4) ++ "-Q" ++
          toString (((ForecastingService.digitVal e - 1) + i) % 4 + 1)) ∧
    (∀ a b c d : Char, ∀ i : ℕ,
      a.isDigit = true → b.isDigit = true → c.isDigit = true → d.isDigit = true →
      ForecastingService.getNextPeriod (String.mk [a, b, c, d]) i =
        toString ((ForecastingService.digitVal a * 1000 + ForecastingService.digitVal b * 100 +
            ForecastingService.digitVal c * 10 + ForecastingService.digitVal d) + i)) := by
  refine ⟨?_, ?_, ?_⟩
  · intro hge
    have hcv : ForecastingService.countValid stmts ≤ stmts.length :=
      List.length_filter_le _ _
    simp only [ForecastingService.forecastRevenue]
    rw [if_neg (by omega), if_neg (by rw [sortedValid_length]; omega)]
    simp [ForecastingService.okPeriods, List.map_map, Function.comp]
  · intro a b c d e i ha hb hc hd he h1 _
    simp only [ForecastingService.getNextPeriod, ForecastingService.scanMatch,
      ForecastingService.tryMatchAt, ha, hb, hc, hd, he, Bool.and_self, if_true]
    rw [if_neg (by omega)]
  · intro a b c d i ha hb hc hd
    simp only [ForecastingService.getNextPeriod, ForecastingService.scanMatch,
      ForecastingService.tryMatchAt, ha, hb, hc, hd, Bool.and_self, if_true]

theorem ratioPoints_shape (r : FinancialRatioService.RatioRecord) :
    ∃ m : ℕ, FinancialRatioService.ratioPoints r = 20 * (2 * m + 1) ∧ 2 * m + 1 ≤ 5 := by
  rcases r with ⟨_, _, _, _, st⟩
  cases st
  exacts [⟨2, by norm_num [FinancialRatioService.ratioPoints]⟩,
    ⟨1, by norm_num [FinancialRatioService.ratioPoints]⟩,
    ⟨0, by norm_num [FinancialRatioService.ratioPoints]⟩]

/-- The sum of the point values of a ratio list is 20 times a natural number
whose parity matches the list length (every point value is 20 times an odd
number). -/
theorem sum_ratioPoints_shape (l : List FinancialRatioService.RatioRecord) :
    ∃ m : ℕ, (l.map FinancialRatioService.ratioPoints).sum = 20 * (m : ℚ) ∧
      m % 2 = l.length % 2 := by
  induction l with
  | nil => exact ⟨0, by simp⟩
  | cons a t ih =>
    obtain ⟨m, hm, hp⟩ := ih
    obtain ⟨k, hk, _⟩ := ratioPoints_shape a
    refine ⟨(2 * k + 1) + m, ?_, ?_⟩
    · simp only [List.map_cons, List.sum_cons, hm, hk]
      push_cast
      ring
    · simp only [List.length_cons]
      omega

/-- A 0.2-weighted category mean over at most 3 ratios lies on the (1/3)ℤ
grid. -/
theorem fifth_avg_shape (l : List FinancialRatioService.RatioRecord) (h : l.length ≤ 3) :
    ∃ j : ℤ, FinancialRatioService.averageScore
        (l.map FinancialRatioService.ratioPoints) * 0.2 = (j : ℚ) / 3 := by
  obtain ⟨m, hm, _⟩ := sum_ratioPoints_shape l
  unfold FinancialRatioService.averageScore
  split_ifs with h0
  · exact ⟨0, by norm_num⟩
  · have hne : l ≠ [] := by
      intro he
      exact h0 (by simp [he])
    have hpos : 1 ≤ l.length := List.length_pos.mpr hne
    rw [List.length_map, hm]
    interval_cases hl : l.length
    · exact ⟨12 * m, by push_cast; ring⟩
    · exact ⟨6 * m, by push_cast; ring⟩
    · exact ⟨4 * m, by push_cast; ring⟩

/-- A 0.3-weighted category mean over at most 4 ratios is an integer. -/
theorem prof_term_shape (l : List FinancialRatioService.RatioRecord) (h : l.length ≤ 4) :
    ∃ j : ℤ, FinancialRatioService.averageScore
        (l.map FinancialRatioService.ratioPoints) * 0.3 = (j : ℚ) := by
  obtain ⟨m, hm, hp⟩ := sum_ratioPoints_shape l
  unfold FinancialRatioService.averageScore
  split_ifs with h0
  · exact ⟨0, by norm_num⟩
  · have hne : l ≠ [] := by
      intro he
      exact h0 (by simp [he])
    have hpos : 1 ≤ l.length := List.length_pos.mpr hne
    rw [List.length_map, hm]
    interval_cases hl : l.length
    · exact ⟨6 * m, by push_cast; ring⟩
    · exact ⟨3 * m, by push_cast; ring⟩
    · exact ⟨2 * m, by push_cast; ring⟩
    · -- length 4: m is even, so 20m/4 · 0.3 = 3·(m/2)
      obtain ⟨m2, rfl⟩ : ∃ m2, m = 2 * m2 := ⟨m / 2, by omega⟩
      exact ⟨3 * m2, by push_cast; ring⟩

theorem mem_liq_cat {s : FinancialStatement} {r : FinancialRatioService.RatioRecord}
    (hr : r ∈ FinancialRatioService.calculateLiquidityRatios s) :
    r.category = FinancialRatioService.RatioCategory.Liquidity := by
  rcases List.mem_append.mp hr with h | h
  · rcases List.mem_append.mp h with h2 | h2
    · exact (mem_currentRatioItem h2).2.1
    · exact (mem_quickRatioItem h2).2.1
  · exact (mem_cashRatioItem h).2.1

theorem mem_lev_cat {s : FinancialStatement} {r : FinancialRatioService.RatioRecord}
    (hr : r ∈ FinancialRatioService.calculateLeverageRatios s) :
    r.category = FinancialRatioService.RatioCategory.Leverage := by
  rcases List.mem_append.mp hr with h | h
  · rcases List.mem_append.mp h with h2 | h2
    · exact (mem_debtToEquityItem h2).2.1
    · exact (mem_debtRatioItem h2).2
  · exact (mem_timesInterestEarnedItem h).2.1

theorem mem_prof_cat {s : FinancialStatement} {r : FinancialRatioService.RatioRecord}
    (hr : r ∈ FinancialRatioService.calculateProfitabilityRatios s) :
    r.category = FinancialRatioService.RatioCategory.Profitability := by
  rcases List.mem_append.mp hr with h | h
  · rcases List.mem_append.mp h with h2 | h2
    · rcases List.mem_append.mp h2 with h3 | h3
      · exact (mem_netProfitMarginItem h3).2.1
      · exact (mem_returnOnAssetsItem h3).2.1
    · exact (mem_returnOnEquityItem h2).2.1
  · exact (mem_grossProfitMarginItem h).2.1

theorem mem_eff_cat {s : FinancialStatement} {r : FinancialRatioService.RatioRecord}
    (hr : r ∈ FinancialRatioService.calculateEfficiencyRatios s) :
    r.category = FinancialRatioService.RatioCategory.Efficiency := by
  rcases List.mem_append.mp hr with h | h
  · rcases List.mem_append.mp h with h2 | h2
    · exact (mem_assetTurnoverItem h2).2.1
    · exact (mem_inventoryTurnoverItem h2).2.1
  · exact (mem_receivablesTurnoverItem h).2.1

theorem filterLiq_eq (s : FinancialStatement) :
    (FinancialRatioService.calculateAllRatios s).filter
        (fun r => decide (r.category = FinancialRatioService.RatioCategory.Liquidity)) =
      FinancialRatioService.calculateLiquidityRatios s := by
  have hA : (FinancialRatioService.calculateLiquidityRatios s).filter
      (fun r => decide (r.category = FinancialRatioService.RatioCategory.Liquidity)) =
        FinancialRatioService.calculateLiquidityRatios s :=
    List.filter_eq_self.mpr fun r hr => by simp [mem_liq_cat hr]
  have hB : (FinancialRatioService.calculateLeverageRatios s).filter
      (fun r => decide (r.category = FinancialRatioService.RatioCategory.Liquidity)) = [] :=
    List.filter_eq_nil_iff.mpr fun r hr => by simp [mem_lev_cat hr]
  have hC : (FinancialRatioService.calculateProfitabilityRatios s).filter
      (fun r => decide (r.category = FinancialRatioService.RatioCategory.Liquidity)) = [] :=
    List.filter_eq_nil_iff.mpr fun r hr => by simp [mem_prof_cat hr]
  have hD : (FinancialRatioService.calculateEfficiencyRatios s).filter
      (fun r => decide (r.category = FinancialRatioService.RatioCategory.Liquidity)) = [] :=
    List.filter_eq_nil_iff.mpr fun r hr => by simp [mem_eff_cat hr]
  simp only [FinancialRatioService.calculateAllRatios, List.filter_append, hA, hB, hC, hD,
    List.append_nil]

theorem filterLev_eq (s : FinancialStatement) :
    (FinancialRatioService.calculateAllRatios s).filter
        (fun r => decide (r.category = FinancialRatioService.RatioCategory.Leverage)) =
      FinancialRatioService.calculateLeverageRatios s := by
  have hA : (FinancialRatioService.calculateLiquidityRatios s).filter
      (fun r => decide (r.category = FinancialRatioService.RatioCategory.Leverage)) = [] :=
    List.filter_eq_nil_iff.mpr fun r hr => by simp [mem_liq_cat hr]
  have hB : (FinancialRatioService.calculateLeverageRatios s).filter
      (fun r => decide (r.category = FinancialRatioService.RatioCategory.Leverage)) =
        FinancialRatioService.calculateLeverageRatios s :=
    List.filter_eq_self.mpr fun r hr => by simp [mem_lev_cat hr]
  have hC : (FinancialRatioService.calculateProfitabilityRatios s).filter
      (fun r => decide (r.category = FinancialRatioService.RatioCategory.Leverage)) = [] :=
    List.filter_eq_nil_iff.mpr fun r hr => by simp [mem_prof_cat hr]
  have hD : (FinancialRatioService.calculateEfficiencyRatios s).filter
      (fun r => decide (r.category = FinancialRatioService.RatioCategory.Leverage)) = [] :=
    List.filter_eq_nil_iff.mpr fun r hr => by simp [mem_eff_cat hr]
  simp only [FinancialRatioService.calculateAllRatios, List.filter_append, hA, hB, hC, hD,
    List.nil_append, List.append_nil]

theorem filterProf_eq (s : FinancialStatement) :
    (FinancialRatioService.calculateAllRatios s).filter
        (fun r => decide (r.category = FinancialRatioService.RatioCategory.Profitability)) =
      FinancialRatioService.calculateProfitabilityRatios s := by
  have hA : (FinancialRatioService.calculateLiquidityRatios s).filter
      (fun r => decide (r.category = FinancialRatioService.RatioCategory.Profitability)) = [] :=
    List.filter_eq_nil_iff.mpr fun r hr => by simp [mem_liq_cat hr]
  have hB : (FinancialRatioService.calculateLeverageRatios s).filter
      (fun r => decide (r.category = FinancialRatioService.RatioCategory.Profitability)) = [] :=
    List.filter_eq_nil_iff.mpr fun r hr => by simp [mem_lev_cat hr]
  have hC : (FinancialRatioService.calculateProfitabilityRatios s).filter
      (fun r => decide (r.category = FinancialRatioService.RatioCategory.Profitability)) =
        FinancialRatioService.calculateProfitabilityRatios s :=
    List.filter_eq_self.mpr fun r hr => by simp [mem_prof_cat hr]
  have hD : (FinancialRatioService.calculateEfficiencyRatios s).filter
      (fun r => decide (r.category = FinancialRatioService.RatioCategory.Profitability)) = [] :=
    List.filter_eq_nil_iff.mpr fun r hr => by simp [mem_eff_cat hr]
  simp only [FinancialRatioService.calculateAllRatios, List.filter_append, hA, hB, hC, hD,
    List.nil_append, List.append_nil]

theorem filterEff_eq (s : FinancialStatement) :
    (FinancialRatioService.calculateAllRatios s).filter
        (fun r => decide (r.category = FinancialRatioService.RatioCategory.Efficiency)) =
      FinancialRatioService.calculateEfficiencyRatios s := by
  have hA : (FinancialRatioService.calculateLiquidityRatios s).filter
      (fun r => decide (r.category = FinancialRatioService.RatioCategory.Efficiency)) = [] :=
    List.filter_eq_nil_iff.mpr fun r hr => by simp [mem_liq_cat hr]
  have hB : (FinancialRatioService.calculateLeverageRatios s).filter
      (fun r => decide (r.category = FinancialRatioService.RatioCategory.Efficiency)) = [] :=
    List.filter_eq_nil_iff.mpr fun r hr => by simp [mem_lev_cat hr]
  have hC : (FinancialRatioService.calculateProfitabilityRatios s).filter
      (fun r => decide (r.category = FinancialRatioService.RatioCategory.Efficiency)) = [] :=
    List.filter_eq_nil_iff.mpr fun r hr => by simp [mem_prof_cat hr]
  have hD : (FinancialRatioService.calculateEfficiencyRatios s).filter
      (fun r => decide (r.category = FinancialRatioService.RatioCategory.Efficiency)) =
        FinancialRatioService.calculateEfficiencyRatios s :=
    List.filter_eq_self.mpr fun r hr => by simp [mem_eff_cat hr]
  simp only [FinancialRatioService.calculateAllRatios, List.filter_append, hA, hB, hC, hD,
    List.nil_append]

theorem liq_len (s : FinancialStatement) :
    (FinancialRatioService.calculateLiquidityRatios s).length ≤ 3 := by
  simp only [FinancialRatioService.calculateLiquidityRatios,
    FinancialRatioService.currentRatioItem, FinancialRatioService.quickRatioItem,
    FinancialRatioService.cashRatioItem, List.length_append]
  split_ifs <;> simp

theorem lev_len (s : FinancialStatement) :
    (FinancialRatioService.calculateLeverageRatios s).length ≤ 3 := by
  simp only [FinancialRatioService.calculateLeverageRatios,
    FinancialRatioService.debtToEquityItem, FinancialRatioService.debtRatioItem,
    FinancialRatioService.timesInterestEarnedItem, List.length_append]
  split_ifs <;> simp

theorem prof_len (s : FinancialStatement) :
    (FinancialRatioService.calculateProfitabilityRatios s).length ≤ 4 := by
  simp only [FinancialRatioService.calculateProfitabilityRatios,
    FinancialRatioService.netProfitMarginItem, FinancialRatioService.returnOnAssetsItem,
    FinancialRatioService.returnOnEquityItem, FinancialRatioService.grossProfitMarginItem,
    List.length_append]
  split_ifs <;> simp

theorem eff_len (s : FinancialStatement) :
    (FinancialRatioService.calculateEfficiencyRatios s).length ≤ 3 := by
  simp only [FinancialRatioService.calculateEfficiencyRatios,
    FinancialRatioService.assetTurnoverItem, FinancialRatioService.inventoryTurnoverItem,
    FinancialRatioService.receivablesTurnoverItem, List.length_append]
  split_ifs <;> simp

theorem calculateOverallFraudScore_eq_of_le (l : List FraudDetectionService.FraudIndicator)
    (hne : l ≠ []) (hle : (l.map (fun i => i.score)).sum / (l.length : ℚ) ≤ 100) :
    FraudDetectionService.calculateOverallFraudScore l =
      (l.map (fun i => i.score)).sum / (l.length : ℚ) := by
  unfold FraudDetectionService.calculateOverallFraudScore
  rw [if_neg hne, min_eq_right hle]

/-- The 0.1-weighted fraud-risk index term lies on the (1/30)ℤ grid: the
overall fraud score is a mean of 3 or 5 scores, each 5 times a natural
number at most 18. -/
theorem fraud_term_shape (s : FinancialStatement) (prevs : List FinancialStatement) :
    ∃ j : ℤ, (100 - (FraudDetectionService.analyzeStatement s prevs).overallFraudScore) * 0.1 =
      (j : ℚ) / 30 := by
  obtain ⟨k1, e1, b1⟩ := benfordLawAnalysis_score_shape s
  obtain ⟨k2, e2, b2⟩ := qualityOfEarnings_score_shape s
  obtain ⟨k3, e3, b3⟩ := accrualCheck_score_shape s
  have c1 : (k1 : ℚ) ≤ 18 := by exact_mod_cast b1
  have c2 : (k2 : ℚ) ≤ 18 := by exact_mod_cast b2
  have c3 : (k3 : ℚ) ≤ 18 := by exact_mod_cast b3
  cases prevs with
  | nil =>
    have hofs : (FraudDetectionService.analyzeStatement s []).overallFraudScore =
        (5 * (k1 : ℚ) + 5 * k2 + 5 * k3) / 3 := by
      show FraudDetectionService.calculateOverallFraudScore
        (FraudDetectionService.fraudIndicatorList s []) = _
      rw [calculateOverallFraudScore_eq_of_le _ (by simp [FraudDetectionService.fraudIndicatorList]) ?_] <;>
        simp only [FraudDetectionService.fraudIndicatorList, List.map_cons, List.map_nil,
          List.sum_cons, List.sum_nil, List.length_cons, List.length_nil, e1, e2, e3]
      · push_cast
        ring
      · push_cast
        linarith
    refine ⟨300 - 5 * (k1 + k2 + k3), ?_⟩
    rw [hofs]
    push_cast
    ring
  | cons p rest =>
    obtain ⟨k4, e4, b4⟩ := receivableGrowthAnalysis_score_shape s p
    obtain ⟨k5, e5, b5⟩ := assetInflationAnalysis_score_shape s p
    have c4 : (k4 : ℚ) ≤ 18 := by exact_mod_cast b4
    have c5 : (k5 : ℚ) ≤ 18 := by exact_mod_cast b5
    have hofs : (FraudDetectionService.analyzeStatement s (p :: rest)).overallFraudScore =
        (5 * (k1 : ℚ) + 5 * k2 + 5 * k4 + 5 * k5 + 5 * k3) / 5 := by
      show FraudDetectionService.calculateOverallFraudScore
        (FraudDetectionService.fraudIndicatorList s (p :: rest)) = _
      rw [calculateOverallFraudScore_eq_of_le _ (by simp [FraudDetectionService.fraudIndicatorList]) ?_] <;>
        simp only [FraudDetectionService.fraudIndicatorList, List.map_cons, List.map_nil,
          List.sum_cons, List.sum_nil, List.length_cons, List.length_nil, e1, e2, e3, e4, e5]
      · push_cast
        ring
      · push_cast
        linarith
    refine ⟨300 - 3 * (k1 + k2 + k4 + k5 + k3), ?_⟩
    rw [hofs]
    push_cast
    ring

/-- Every achievable unrounded final weighted score lies on the (1/30)ℤ grid. -/
theorem finalScore_grid (s : FinancialStatement) (prevs : List FinancialStatement) :
    ∃ k : ℤ,
      (FinancialRatioService.calculateCategoryScores
          (FinancialRatioService.calculateAllRatios s)).liquidity * 0.2 +
        (FinancialRatioService.calculateCategoryScores
          (FinancialRatioService.calculateAllRatios s)).leverage * 0.2 +
        (FinancialRatioService.calculateCategoryScores
          (FinancialRatioService.calculateAllRatios s)).profitability * 0.3 +
        (FinancialRatioService.calculateCategoryScores
          (FinancialRatioService.calculateAllRatios s)).efficiency * 0.2 +
        (100 - (FraudDetectionService.analyzeStatement s prevs).overallFraudScore) * 0.1 =
      (k : ℚ) / 30 := by
  have hLiq : ∃ j : ℤ, (FinancialRatioService.calculateCategoryScores
      (FinancialRatioService.calculateAllRatios s)).liquidity * 0.2 = (j : ℚ) / 3 := by
    show ∃ j : ℤ, FinancialRatioService.averageScore
        (((FinancialRatioService.calculateAllRatios s).filter
          (fun r => decide (r.category = FinancialRatioService.RatioCategory.Liquidity))).map
            FinancialRatioService.ratioPoints) * 0.2 = (j : ℚ) / 3
    rw [filterLiq_eq]
    exact fifth_avg_shape _ (liq_len s)
  have hLev : ∃ j : ℤ, (FinancialRatioService.calculateCategoryScores
      (FinancialRatioService.calculateAllRatios s)).leverage * 0.2 = (j : ℚ) / 3 := by
    show ∃ j : ℤ, FinancialRatioService.averageScore
        (((FinancialRatioService.calculateAllRatios s).filter
          (fun r => decide (r.category = FinancialRatioService.RatioCategory.Leverage))).map
            FinancialRatioService.ratioPoints) * 0.2 = (j : ℚ) / 3
    rw [filterLev_eq]
    exact fifth_avg_shape _ (lev_len s)
  have hProf : ∃ j : ℤ, (FinancialRatioService.calculateCategoryScores
      (FinancialRatioService.calculateAllRatios s)).profitability * 0.3 = (j : ℚ) := by
    show ∃ j : ℤ, FinancialRatioService.averageScore
        (((FinancialRatioService.calculateAllRatios s).filter
          (fun r => decide (r.category = FinancialRatioService.RatioCategory.Profitability))).map
            FinancialRatioService.ratioPoints) * 0.3 = (j : ℚ)
    rw [filterProf_eq]
    exact prof_term_shape _ (prof_len s)
  have hEff : ∃ j : ℤ, (FinancialRatioService.calculateCategoryScores
      (FinancialRatioService.calculateAllRatios s)).efficiency * 0.2 = (j : ℚ) / 3 := by
    show ∃ j : ℤ, FinancialRatioService.averageScore
        (((FinancialRatioService.calculateAllRatios s).filter
          (fun r => decide (r.category = FinancialRatioService.RatioCategory.Efficiency))).map
            FinancialRatioService.ratioPoints) * 0.2 = (j : ℚ) / 3
    rw [filterEff_eq]
    exact fifth_avg_shape _ (eff_len s)
  obtain ⟨j1, h1⟩ := hLiq
  obtain ⟨j2, h2⟩ := hLev
  obtain ⟨j3, h3⟩ := hProf
  obtain ⟨j4, h4⟩ := hEff
  obtain ⟨j5, h5⟩ := fraud_term_shape s prevs
  refine ⟨10 * j1 + 10 * j2 + 30 * j3 + 10 * j4 + j5, ?_⟩
  rw [h1, h2, h3, h4, h5]
  push_cast
  ring

/-- On the (1/30)ℤ grid, rounding to 2 decimals never crosses one of the
integer rating-band boundaries: the grid point below a boundary is at least
1/30 away, while rounding moves a value by less than 1/200. -/
theorem calculateRating_round2_grid (x : ℚ) (k : ℤ) (hx : x = (k : ℚ) / 30) :
    ScoringService.calculateRating (round2 x) = ScoringService.calculateRating x := by
  have key : ∀ b : ℤ, ((b : ℚ) ≤ round2 x ↔ (b : ℚ) ≤ x) := by
    intro b
    subst hx
    unfold round2 jsRound
    constructor
    · intro h
      have h1 : ((b : ℚ)) * 100 ≤ ((⌊(k : ℚ) / 30 * 100 + 1/2⌋ : ℤ) : ℚ) := by linarith
      have h2 : (b * 100 : ℤ) ≤ ⌊(k : ℚ) / 30 * 100 + 1/2⌋ := by exact_mod_cast h1
      have h3 : ((b * 100 : ℤ) : ℚ) ≤ (k : ℚ) / 30 * 100 + 1/2 := by
        have := Int.le_floor.mp h2
        exact_mod_cast this
      have h4 : (600 * b : ℤ) ≤ 20 * k + 3 := by
        have h5 : (600 * (b : ℚ)) ≤ 20 * k + 3 := by
          push_cast at h3
          linarith
        exact_mod_cast h5
      have h6 : (30 * b : ℤ) ≤ k := by omega
      have h7 : (30 * (b : ℚ)) ≤ (k : ℚ) := by exact_mod_cast h6
      linarith
    · intro h
      have h1 : (b * 100 : ℤ) ≤ ⌊(k : ℚ) / 30 * 100 + 1/2⌋ := by
        apply Int.le_floor.mpr
        push_cast
        linarith
      have h2 : ((b * 100 : ℤ) : ℚ) ≤ ((⌊(k : ℚ) / 30 * 100 + 1/2⌋ : ℤ) : ℚ) := by
        exact_mod_cast h1
      push_cast at h2
      linarith
  have e95 : ((95 : ℚ) ≤ round2 x) ↔ ((95 : ℚ) ≤ x) := by
    have := key 95
    push_cast at this
    exact this
  have e90 : ((90 : ℚ) ≤ round2 x) ↔ ((90 : ℚ) ≤ x) := by
    have := key 90
    push_cast at this
    exact this
  have e80 : ((80 : ℚ) ≤ round2 x) ↔ ((80 : ℚ) ≤ x) := by
    have := key 80
    push_cast at this
    exact this
  have e70 : ((70 : ℚ) ≤ round2 x) ↔ ((70 : ℚ) ≤ x) := by
    have := key 70
    push_cast at this
    exact this
  have e60 : ((60 : ℚ) ≤ round2 x) ↔ ((60 : ℚ) ≤ x) := by
    have := key 60
    push_cast at this
    exact this
  have e50 : ((50 : ℚ) ≤ round2 x) ↔ ((50 : ℚ) ≤ x) := by
    have := key 50
    push_cast at this
    exact this
  have e40 : ((40 : ℚ) ≤ round2 x) ↔ ((40 : ℚ) ≤ x) := by
    have := key 40
    push_cast at this
    exact this
  have e30 : ((30 : ℚ) ≤ round2 x) ↔ ((30 : ℚ) ≤ x) := by
    have := key 30
    push_cast at this
    exact this
  have e20 : ((20 : ℚ) ≤ round2 x) ↔ ((20 : ℚ) ≤ x) := by
    have := key 20
    push_cast at this
    exact this
  unfold ScoringService.calculateRating
  simp only [e95, e90, e80, e70, e60, e50, e40, e30, e20]

/-- Claim C1 (amended): `calculateWeightedScore` returns
`fraudRiskIndex = round2(100 − overallFraudScore)` (the value 100 minus the
fraud score, rounded to 2 decimals like all returned indices), `finalScore =
round2(0.20·liquidity + 0.20·leverage + 0.30·profitability + 0.20·efficiency
+ 0.10·(100 − overallFraudScore))`, and a rating determined by the returned
(rounded) `finalScore` via the bands 95/90/80/70/60/50/40/30/20. The rating
conjunct holds although the source rates the unrounded score, because
achievable final scores lie on the (1/30)ℤ grid and rounding to 2 decimals
never crosses a band boundary from below. -/
theorem claim_C1 (s : FinancialStatement) (prevs : List FinancialStatement) :
    (ScoringService.calculateWeightedScore s prevs).fraudRiskIndex =
      round2 (100 - (FraudDetectionService.analyzeStatement s prevs).overallFraudScore) ∧
    (ScoringService.calculateWeightedScore s prevs).finalScore =
      round2 (0.2 * (FinancialRatioService.calculateCategoryScores
          (FinancialRatioService.calculateAllRatios s)).liquidity +
        0.2 * (FinancialRatioService.calculateCategoryScores
          (FinancialRatioService.calculateAllRatios s)).leverage +
        0.3 * (FinancialRatioService.calculateCategoryScores
          (FinancialRatioService.calculateAllRatios s)).profitability +
        0.2 * (FinancialRatioService.calculateCategoryScores
          (FinancialRatioService.calculateAllRatios s)).efficiency +
        0.1 * (100 - (FraudDetectionService.analyzeStatement s prevs).overallFraudScore)) ∧
    (ScoringService.calculateWeightedScore s prevs).rating =
      ScoringService.calculateRating (ScoringService.calculateWeightedScore s prevs).finalScore := by
  refine ⟨rfl, ?_, ?_⟩
  · show round2 ((FinancialRatioService.calculateCategoryScores
          (FinancialRatioService.calculateAllRatios s)).liquidity * 0.2 +
        (FinancialRatioService.calculateCategoryScores
          (FinancialRatioService.calculateAllRatios s)).leverage * 0.2 +
        (FinancialRatioService.calculateCategoryScores
          (FinancialRatioService.calculateAllRatios s)).profitability * 0.3 +
        (FinancialRatioService.calculateCategoryScores
          (FinancialRatioService.calculateAllRatios s)).efficiency * 0.2 +
        (100 - (FraudDetectionService.analyzeStatement s prevs).overallFraudScore) * 0.1) = _
    exact congrArg round2 (by ring)
  · obtain ⟨k, hk⟩ := finalScore_grid s prevs
    show ScoringService.calculateRating
        ((FinancialRatioService.calculateCategoryScores
            (FinancialRatioService.calculateAllRatios s)).liquidity * 0.2 +
          (FinancialRatioService.calculateCategoryScores
            (FinancialRatioService.calculateAllRatios s)).leverage * 0.2 +
          (FinancialRatioService.calculateCategoryScores
            (FinancialRatioService.calculateAllRatios s)).profitability * 0.3 +
          (FinancialRatioService.calculateCategoryScores
            (FinancialRatioService.calculateAllRatios s)).efficiency * 0.2 +
          (100 - (FraudDetectionService.analyzeStatement s prevs).overallFraudScore) * 0.1) =
      ScoringService.calculateRating (round2
        ((FinancialRatioService.calculateCategoryScores
            (FinancialRatioService.calculateAllRatios s)).liquidity * 0.2 +
          (FinancialRatioService.calculateCategoryScores
            (FinancialRatioService.calculateAllRatios s)).leverage * 0.2 +
          (FinancialRatioService.calculateCategoryScores
            (FinancialRatioService.calculateAllRatios s)).profitability * 0.3 +
          (FinancialRatioService.calculateCategoryScores
            (FinancialRatioService.calculateAllRatios s)).efficiency * 0.2 +
          (100 - (FraudDetectionService.analyzeStatement s prevs).overallFraudScore) * 0.1))
    exact (calculateRating_round2_grid _ k hk).symm

/-- Counterexample to C1 as stated: with indicators scoring 0, 90 and 80 the
overall fraud score is 170/3, and the returned `fraudRiskIndex` is the
rounded 43.33, not the exact 100 − 170/3 = 43.3̄. -/
theorem claim_C1_counterexample :
    (FraudDetectionService.analyzeStatement exStmtC1 []).overallFraudScore = 170 / 3 ∧
    (ScoringService.calculateWeightedScore exStmtC1 []).fraudRiskIndex = 43.33 ∧
    (ScoringService.calculateWeightedScore exStmtC1 []).fraudRiskIndex ≠
      100 - (FraudDetectionService.analyzeStatement exStmtC1 []).overallFraudScore := by
  refine ⟨?_, ?_, ?_⟩ <;>
    norm_num [ScoringService.calculateWeightedScore, FraudDetectionService.analyzeStatement,
      FraudDetectionService.fraudIndicatorList, FraudDetectionService.benfordLawAnalysis,
      FraudDetectionService.benfordNumbers, FraudDetectionService.qualityOfEarnings,
      FraudDetectionService.accrualCheck, FraudDetectionService.calculateOverallFraudScore,
      round2, jsRound, truthy, exStmtC1, abs_of_nonneg, List.filterMap_cons,
      List.filterMap_nil, List.filter_cons, List.filter_nil, List.cons_ne_nil]

/-- Witness for C9: the repository's own forecast fixture (labels
`1400-Q1`..`1400-Q4`, 2 periods ahead) yields `1401-Q1`, `1401-Q2` in order,
and the quarter/annual advancement formulas at concrete labels. -/
theorem claim_C9_witness :
    (2 ≤ ForecastingService.countValid exHistory ∧
      ForecastingService.okPeriods (ForecastingService.forecastRevenue exHistory 2) =
        some ["1401-Q1", "1401-Q2"]) ∧
    ForecastingService.getNextPeriod (String.mk ['1', '4', '0', '0', '-', 'Q', '4']) 2 =
      "1401-Q2" ∧
    ForecastingService.getNextPeriod (String.mk ['1', '4', '0', '2']) 3 = "1405" :=
  ⟨⟨by decide, ((claim_C9 exHistory 2).1 (by decide)).trans (by
      norm_num [ForecastingService.lastSortedPeriod, ForecastingService.sortedValid,
        exHistory, histStmt, ForecastingService.validRevenue, truthy,
        List.insertionSort, List.orderedInsert, ForecastingService.periodLe]
      decide)⟩,
    ((claim_C9 exHistory 2).2.1 '1' '4' '0' '0' '4' 2 (by decide) (by decide) (by decide)
      (by decide) (by decide) (by decide) (by decide)).trans (by decide),
    ((claim_C9 exHistory 2).2.2 '1' '4' '0' '2' 3 (by decide) (by decide) (by decide)
      (by decide)).trans (by decide)⟩
